import Mathlib

/-!
The two engine drivers of systemkit-service.

Shallow embedding of `service_linux-systemd.go` (the unit engine, `systemdService`)
and `service_darwin-launchd.go` (the plist engine, `launchdService`).

* Go strings are lists of runes (`GoString`); every string primitive the drivers call
  (`strings.Contains`, `strings.Split`, `strings.TrimSpace`, `strings.ToLower`,
  `strconv.Atoi`, `filepath.Join`, `filepath.Dir`) is written out by structural recursion.
* The host (file system, native control tool, privilege, home directory) is a record of
  response functions; each may depend on the events issued so far.  Every driver
  operation takes the trace of events so far and returns its Go result together with the
  extended trace.
* A Go run-time panic (index out of range) is the result `none`.
* Logging calls have no effect on results and are left out.
-/

namespace Service

/-- Go `string`, as the list of its runes. -/
abbrev GoString := List Char

/-! ## `strings` -/

/-- Go `strings.HasPrefix(s, p)`. -/
def startsWith : GoString → GoString → Bool
  | _, [] => true
  | [], _ :: _ => false
  | c :: s, d :: p => c == d && startsWith s p

/-- Go `strings.Contains(s, sub)`. -/
def contains : GoString → GoString → Bool
  | [], sub => startsWith [] sub
  | c :: s, sub => startsWith (c :: s) sub || contains s sub

/-- Go `strings.Split(s, sep)` for a separator of one rune: the pieces between the
separators, always at least one piece. -/
def splitOn (sep : Char) : GoString → List GoString
  | [] => [[]]
  | c :: s =>
    if c = sep then [] :: splitOn sep s
    else
      match splitOn sep s with
      | [] => [[c]]
      | p :: ps => (c :: p) :: ps

/-- Go `strings.Join(elems, "/")`. -/
def joinSlash : List GoString → GoString
  | [] => []
  | [a] => a
  | a :: b :: rest => a ++ '/' :: joinSlash (b :: rest)

/-- Go `unicode.IsSpace`. -/
def isSpace (c : Char) : Bool :=
  let n := c.toNat
  n = 9 || n = 10 || n = 11 || n = 12 || n = 13 || n = 32 || n = 0x85 || n = 0xA0 ||
  n = 0x1680 || (0x2000 ≤ n && n ≤ 0x200A) || n = 0x2028 || n = 0x2029 || n = 0x202F ||
  n = 0x205F || n = 0x3000

/-- Drop the leading white space. -/
def trimLeft : GoString → GoString
  | [] => []
  | c :: s => if isSpace c then trimLeft s else c :: s

/-- Go `strings.TrimSpace`. -/
def trimSpace (s : GoString) : GoString :=
  (trimLeft (trimLeft s).reverse).reverse

/-- Go `unicode.ToLower` on an ASCII rune; `table` is the Unicode case table for the
other runes. -/
def toLowerRune (table : Char → Char) (c : Char) : Char :=
  if c.toNat < 128 then
    (if 65 ≤ c.toNat ∧ c.toNat ≤ 90 then Char.ofNat (c.toNat + 32) else c)
  else table c

/-- Go `strings.ToLower`. -/
def toLower (table : Char → Char) (s : GoString) : GoString :=
  s.map (toLowerRune table)

/-! ## `strconv.Atoi` -/

/-- The width of Go `int` on the 64-bit targets. -/
def intSize : Nat := 64

/-- Result of the digit loop of `strconv.ParseUint(s, 10, 64)`. -/
inductive UintParse
  | syntaxError
  | rangeError
  | value (n : Nat)
  deriving DecidableEq, Repr

/-- The digit loop of `strconv.ParseUint(s, 10, 64)`: left to right, stopping at the
first rune that is no digit (syntax error) or at the first prefix above `2^64 - 1`
(range error). -/
def parseDigits : GoString → Nat → UintParse
  | [], n => .value n
  | c :: s, n =>
    if 48 ≤ c.toNat ∧ c.toNat ≤ 57 then
      let n1 := n * 10 + (c.toNat - 48)
      if n1 > 2 ^ 64 - 1 then .rangeError else parseDigits s n1
    else .syntaxError

/-- The value `strconv.Atoi(s)` returns (its error result is discarded by both
drivers): `0` on a syntax error, the clamped bound on a range error. -/
def atoi (s : GoString) : Int :=
  let neg : Bool := match s with
    | '-' :: _ => true
    | _ => false
  let body : GoString := match s with
    | '-' :: t => t
    | '+' :: t => t
    | _ => s
  match body with
  | [] => 0
  | _ :: _ =>
    match parseDigits body 0 with
    | .syntaxError => 0
    | .rangeError => if neg then -(2 ^ (intSize - 1) : Int) else (2 ^ (intSize - 1) : Int) - 1
    | .value n =>
      if neg then
        (if n > 2 ^ (intSize - 1) then -(2 ^ (intSize - 1) : Int) else -(n : Int))
      else
        (if n ≥ 2 ^ (intSize - 1) then (2 ^ (intSize - 1) : Int) - 1 else (n : Int))

/-! ## `path/filepath` (Unix) -/

/-- One step of `filepath.Clean` on the stack of kept elements (innermost first):
empty and `.` elements are dropped, `..` removes the element before it when that one
is no `..`, is dropped at the root of a rooted path, and is kept otherwise. -/
def cleanStep (rooted : Bool) (stack : List GoString) (c : GoString) : List GoString :=
  if c = [] ∨ c = ['.'] then stack
  else if c = ['.', '.'] then
    match stack with
    | [] => if rooted then [] else [c]
    | top :: below => if top = ['.', '.'] then c :: stack else below
  else c :: stack

/-- The elements `filepath.Clean` keeps, innermost first. -/
def cleanStack (rooted : Bool) (comps : List GoString) (stack : List GoString) :
    List GoString :=
  comps.foldl (cleanStep rooted) stack

/-- The text of a cleaned path over its kept elements. -/
def renderPath (rooted : Bool) (stack : List GoString) : GoString :=
  match rooted, stack with
  | false, [] => ['.']
  | true, _ => '/' :: joinSlash stack.reverse
  | false, _ => joinSlash stack.reverse

/-- Go `filepath.Clean` over the elements of a path. -/
def cleanComps (rooted : Bool) (comps : List GoString) : GoString :=
  renderPath rooted (cleanStack rooted comps [])

/-- Go `filepath.Clean`. -/
def Clean (path : GoString) : GoString :=
  match path with
  | [] => ['.']
  | c :: _ => cleanComps (c = '/') (splitOn '/' path)

/-- Go `filepath.Join`: the non-empty elements joined by `/`, then cleaned; the empty
string when no element is left. -/
def Join (elems : List GoString) : GoString :=
  match elems.filter (fun e => e ≠ []) with
  | [] => []
  | e :: es => Clean (joinSlash (e :: es))

/-- The part of a path up to and including its last `/`. -/
def dirPart : GoString → GoString
  | [] => []
  | c :: s =>
    match dirPart s with
    | [] => if c = '/' then [c] else []
    | d :: ds => c :: d :: ds

/-- Go `filepath.Dir`. -/
def Dir (path : GoString) : GoString :=
  Clean (dirPart path)

/-! ## Data model -/

/-- One log target of the descriptor (`spec.SERVICE.Logging.StdOut` / `StdErr`). -/
structure LogTarget where
  UseDefault : Bool
  Value : GoString
  deriving DecidableEq, Repr

/-- The `Logging` part of the descriptor. -/
structure LoggingSpec where
  StdOut : LogTarget
  StdErr : LogTarget
  deriving DecidableEq, Repr

/-- The engine-neutral descriptor `spec.SERVICE`: the fields the drivers read or set,
and `Rest` for the fields they only carry. -/
structure SERVICE where
  Name : GoString
  Logging : LoggingSpec
  Rest : GoString
  deriving DecidableEq, Repr

/-- The file-format encoders of the two engines, supplied from outside. -/
structure Encoders where
  SERVICEToSystemD : SERVICE → GoString
  SystemDToSERVICE : GoString → SERVICE
  SERVICEToLaunchD : SERVICE → GoString
  LaunchDToSERVICE : GoString → SERVICE

/-- Go `syscall.Errno`, by its code. -/
abbrev Errno := Nat

/-- The code `syscall.ENOENT`. -/
def ENOENT : Errno := 2

/-- Go `Errno.Error()` on darwin, the only target whose driver prints an `Errno` (the
plist engine's Uninstall): the entries of the error table for the codes a file
operation of the drivers returns; a code without an entry prints as `errno` and the
number. -/
def errnoText (e : Errno) : GoString :=
  if e = 1 then "operation not permitted".toList
  else if e = 2 then "no such file or directory".toList
  else if e = 13 then "permission denied".toList
  else if e = 16 then "resource busy".toList
  else if e = 20 then "not a directory".toList
  else if e = 21 then "is a directory".toList
  else if e = 30 then "read-only file system".toList
  else if e = 66 then "directory not empty".toList
  else "errno ".toList ++ (Nat.repr e).toList

/-- Go `*os.PathError`. -/
structure PathError where
  Op : GoString
  Path : GoString
  Err : Errno
  deriving DecidableEq, Repr

/-- Go `(*os.PathError).Error()`. -/
def PathError.Error (e : PathError) : GoString :=
  e.Op ++ " ".toList ++ e.Path ++ ": ".toList ++ errnoText e.Err

/-- Go `os.IsNotExist` on the error inside a path error. -/
def osIsNotExist (e : Errno) : Bool := e = ENOENT

/-- The error `helpers.ExecWithArgs` returns for a failed run of the native tool; the
helpers package cannot name the typed errors of the service package. -/
structure ExecError where
  msg : GoString
  deriving DecidableEq, Repr

/-- The values of Go `error` the drivers handle: the two typed errors of the package,
the error of a failed tool run, and a path error of a file operation. -/
inductive GoError
  | ErrServiceDoesNotExist
  | ErrServiceConfigError
  | exec (e : ExecError)
  | path (e : PathError)
  deriving DecidableEq, Repr

/-- Lift the optional error of a tool run to Go `error`. -/
def execErr (e : Option ExecError) : Option GoError := e.map GoError.exec

/-- Lift the optional error of a file operation to Go `error`. -/
def pathErr (e : Option PathError) : Option GoError := e.map GoError.path

/-- Modelled from the spec: `helpers.Is(err, target)` of this repository's helpers
package, which is not among the sources. The spec has Uninstall tolerate "a not-exist
condition from Stop": the error is the target. -/
def helpersIs (err : Option GoError) (target : GoError) : Bool :=
  err = some target

/-- Modelled from the spec: the query result `Info` of this repository, whose
declaration is not among the sources (spec section 3). -/
structure Info where
  Error : Option GoError
  Service : SERVICE
  IsRunning : Bool
  PID : Int
  FilePath : GoString
  FileContent : GoString
  deriving DecidableEq, Repr

/-! ## The host -/

/-- What a driver does to the host, in order. -/
inductive Event
  | exec (tool : GoString) (args : List GoString)
  | readFile (path : GoString)
  | mkdirAll (path : GoString)
  | writeFile (path content : GoString)
  | remove (path : GoString)
  deriving DecidableEq, Repr

/-- The host a driver runs on. `IsRoot` and `HomeDir` are `helpers.IsRoot()` and
`helpers.HomeDir("")`; `ExecWithArgs` is `helpers.ExecWithArgs` (output and error);
`ReadFile`, `WriteFile`, `Remove` are `ioutil.ReadFile`, `ioutil.WriteFile`,
`os.Remove`. Each response may depend on the events so far. `lowerTable` is the Unicode
lower-case table for runes outside ASCII. -/
structure Host where
  IsRoot : Bool
  HomeDir : GoString
  ExecWithArgs : List Event → GoString → List GoString → GoString × Option ExecError
  ReadFile : List Event → GoString → GoString × Option PathError
  WriteFile : List Event → GoString → GoString → Option PathError
  Remove : List Event → GoString → Option PathError
  lowerTable : Char → Char

/-- The result of a tool run and the trace after it. -/
abbrev Ran := (GoString × Option ExecError) × List Event

/-! ## `service_darwin-launchd.go` -/

/-- The plist engine's driver. -/
structure launchdService where
  serviceSpec : SERVICE
  useConfigAsFileContent : Bool
  fileContentTemplate : GoString
  deriving DecidableEq, Repr

/-- Source: `runLaunchCtlCommand`. -/
def runLaunchCtlCommand (h : Host) (args : List GoString) (tr : List Event) : Ran :=
  (h.ExecWithArgs tr "launchctl".toList args, tr ++ [Event.exec "launchctl".toList args])

/-- Source: `newServiceFromSERVICE` (darwin). -/
def newServiceFromSERVICE (h : Host) (serviceSpec : SERVICE) : launchdService :=
  let logDir :=
    if h.IsRoot then Join ["/Library/Logs".toList, serviceSpec.Name]
    else Join [h.HomeDir, "Library/Logs".toList, serviceSpec.Name]
  let out :=
    if serviceSpec.Logging.StdOut.UseDefault then
      { serviceSpec.Logging.StdOut with
        Value := Join [logDir, serviceSpec.Name ++ ".stdout.log".toList] }
    else serviceSpec.Logging.StdOut
  let err :=
    if serviceSpec.Logging.StdErr.UseDefault then
      { serviceSpec.Logging.StdErr with
        Value := Join [logDir, serviceSpec.Name ++ ".stderr.log".toList] }
    else serviceSpec.Logging.StdErr
  { serviceSpec := { serviceSpec with Logging := { StdOut := out, StdErr := err } },
    useConfigAsFileContent := true,
    fileContentTemplate := [] }

/-- Source: `newServiceFromPlatformTemplate` (darwin). -/
def newServiceFromPlatformTemplate (enc : Encoders) (_name : GoString) (template : GoString) :
    launchdService × Option GoError :=
  ({ serviceSpec := enc.LaunchDToSERVICE template,
     useConfigAsFileContent := false,
     fileContentTemplate := template }, none)

/-- Source: `launchdService.filePath`. -/
def launchdService.filePath (h : Host) (s : launchdService) : GoString :=
  if h.IsRoot then
    Join ["/Library/LaunchDaemons".toList, s.serviceSpec.Name ++ ".plist".toList]
  else
    Join [h.HomeDir, "Library/LaunchAgents".toList, s.serviceSpec.Name ++ ".plist".toList]

/-- Source: `launchdService.Install`. -/
def launchdService.Install (enc : Encoders) (h : Host) (s : launchdService)
    (tr : List Event) : Option GoError × List Event :=
  let dir := Dir (s.filePath h)
  let tr1 := tr ++ [Event.mkdirAll dir]
  let fileContent := enc.SERVICEToLaunchD s.serviceSpec
  let err := h.WriteFile tr1 (s.filePath h) fileContent
  let tr2 := tr1 ++ [Event.writeFile (s.filePath h) fileContent]
  match err with
  | some e => (some (GoError.path e), tr2)
  | none => (none, tr2)

/-- Source: `launchdService.Stop`. -/
def launchdService.Stop (h : Host) (s : launchdService) (tr : List Event) :
    Option GoError × List Event :=
  let r0 := runLaunchCtlCommand h ["stop".toList, s.serviceSpec.Name] tr
  let r := runLaunchCtlCommand h ["unload".toList, s.filePath h] r0.2
  if contains r.1.1 "Could not find specified service".toList then
    (some GoError.ErrServiceDoesNotExist, r.2)
  else (execErr r.1.2, r.2)

/-- Source: `launchdService.Uninstall`. -/
def launchdService.Uninstall (h : Host) (s : launchdService) (tr : List Event) :
    Option GoError × List Event :=
  let st := s.Stop h tr
  if st.1 ≠ none ∧ ¬ helpersIs st.1 GoError.ErrServiceDoesNotExist then (st.1, st.2)
  else
    let err := h.Remove st.2 (s.filePath h)
    let tr2 := st.2 ++ [Event.remove (s.filePath h)]
    match err with
    | some e =>
      if contains (toLower h.lowerTable e.Error) "no such file or directory".toList then
        (none, tr2)
      else (some (GoError.path e), tr2)
    | none => (none, (runLaunchCtlCommand h ["remove".toList, s.serviceSpec.Name] tr2).2)

/-- Source: `launchdService.Start`. -/
def launchdService.Start (h : Host) (s : launchdService) (tr : List Event) :
    Option GoError × List Event :=
  let r := runLaunchCtlCommand h ["load".toList, "-w".toList, s.filePath h] tr
  if contains r.1.1 "No such file or directory".toList then
    (some GoError.ErrServiceDoesNotExist, r.2)
  else if contains r.1.1 "Invalid property list".toList then
    (some GoError.ErrServiceConfigError, r.2)
  else if contains r.1.1 "service already loaded".toList then (none, r.2)
  else (none, (runLaunchCtlCommand h ["start".toList, s.serviceSpec.Name] r.2).2)

/-- The loop of `launchdService.Info` over the lines of the listing; `none` is the
index-out-of-range panic of `chunks[2]`. -/
def launchdService.scanLines (name : GoString) : List GoString → Info → Option Info
  | [], result => some result
  | line :: rest, result =>
    let chunks := splitOn '\t' line
    match chunks[2]?, chunks[0]? with
    | some c2, some c0 =>
      if c2 = name then
        let r1 := if c0 ≠ ['-'] then { result with PID := atoi c0 } else result
        let r2 := if r1.PID ≠ -1 then { r1 with IsRunning := true } else r1
        some r2
      else launchdService.scanLines name rest result
    | _, _ => none

/-- Source: `launchdService.Info`, up to the query of the manager: the record built
from the file read, with the not-exist error when the read failed or the file is
empty. -/
def launchdService.fileSnapshot (h : Host) (s : launchdService) (tr : List Event) : Info :=
  let rd := h.ReadFile tr (s.filePath h)
  let result : Info :=
    { Error := none, Service := s.serviceSpec, IsRunning := false, PID := -1,
      FilePath := s.filePath h, FileContent := rd.1 }
  if rd.2 ≠ none ∨ rd.1.length ≤ 0 then
    { result with Error := some GoError.ErrServiceDoesNotExist }
  else result

/-- Source: `launchdService.Info`. -/
def launchdService.Info (h : Host) (s : launchdService) (tr : List Event) :
    Option Service.Info × List Event :=
  let result := s.fileSnapshot h tr
  let tr1 := tr ++ [Event.readFile (s.filePath h)]
  let r := runLaunchCtlCommand h ["list".toList] tr1
  match r.1.2 with
  | some e => (some { result with Error := some (GoError.exec e) }, r.2)
  | none =>
    (launchdService.scanLines s.serviceSpec.Name (splitOn '\n' (trimSpace r.1.1)) result, r.2)

/-! ## `service_linux-systemd.go` -/

/-- The unit engine's driver. -/
structure systemdService where
  serviceSpec : SERVICE
  useConfigAsFileContent : Bool
  fileContentTemplate : GoString
  deriving DecidableEq, Repr

/-- Source: `runSystemCtlCommand`; `--user` goes first when not root. -/
def runSystemCtlCommand (h : Host) (args : List GoString) (tr : List Event) : Ran :=
  let args1 := if ¬ h.IsRoot then "--user".toList :: args else args
  (h.ExecWithArgs tr "systemctl".toList args1, tr ++ [Event.exec "systemctl".toList args1])

/-- Source: `newServiceFromSERVICE_SystemD`. -/
def newServiceFromSERVICE_SystemD (serviceSpec : SERVICE) : systemdService :=
  { serviceSpec := serviceSpec, useConfigAsFileContent := true, fileContentTemplate := [] }

/-- Source: `newServiceFromPlatformTemplate_SystemD`. -/
def newServiceFromPlatformTemplate_SystemD (enc : Encoders) (_name : GoString)
    (template : GoString) : systemdService × Option GoError :=
  ({ serviceSpec := enc.SystemDToSERVICE template,
     useConfigAsFileContent := false,
     fileContentTemplate := template }, none)

/-- Source: `systemdService.filePath`. -/
def systemdService.filePath (h : Host) (s : systemdService) : GoString :=
  if h.IsRoot then
    Join ["/etc/systemd/system".toList, s.serviceSpec.Name ++ ".service".toList]
  else
    Join [h.HomeDir, ".config/systemd/user".toList, s.serviceSpec.Name ++ ".service".toList]

/-- Source: `systemdService.Install`. -/
def systemdService.Install (enc : Encoders) (h : Host) (s : systemdService)
    (tr : List Event) : Option GoError × List Event :=
  let dir := Dir (s.filePath h)
  let tr1 := tr ++ [Event.mkdirAll dir]
  let fileContent :=
    if ¬ s.useConfigAsFileContent then s.fileContentTemplate
    else enc.SERVICEToSystemD s.serviceSpec
  let err := h.WriteFile tr1 (s.filePath h) fileContent
  let tr2 := tr1 ++ [Event.writeFile (s.filePath h) fileContent]
  match err with
  | some e => (some (GoError.path e), tr2)
  | none => (none, tr2)

/-- Source: `systemdService.Start`. -/
def systemdService.Start (h : Host) (s : systemdService) (tr : List Event) :
    Option GoError × List Event :=
  let r1 := runSystemCtlCommand h ["daemon-reload".toList] tr
  match r1.1.2 with
  | some e => (some (GoError.exec e), r1.2)
  | none =>
    let r2 := runSystemCtlCommand h ["enable".toList, s.serviceSpec.Name] r1.2
    match r2.1.2 with
    | some e =>
      if contains r2.1.1 "Failed to enable unit".toList
          && contains r2.1.1 "does not exist".toList then
        (some GoError.ErrServiceDoesNotExist, r2.2)
      else (some (GoError.exec e), r2.2)
    | none =>
      let r3 := runSystemCtlCommand h ["start".toList, s.serviceSpec.Name] r2.2
      match r3.1.2 with
      | some e =>
        if contains r3.1.1 "Failed to start".toList && contains r3.1.1 "not found".toList then
          (some GoError.ErrServiceDoesNotExist, r3.2)
        else (some (GoError.exec e), r3.2)
      | none => (none, r3.2)

/-- Source: `systemdService.Stop`. -/
def systemdService.Stop (h : Host) (s : systemdService) (tr : List Event) :
    Option GoError × List Event :=
  let r1 := runSystemCtlCommand h ["daemon-reload".toList] tr
  match r1.1.2 with
  | some e => (some (GoError.exec e), r1.2)
  | none =>
    let r2 := runSystemCtlCommand h ["stop".toList, s.serviceSpec.Name] r1.2
    match r2.1.2 with
    | some e =>
      if contains r2.1.1 "Failed to stop".toList && contains r2.1.1 "not loaded".toList then
        (some GoError.ErrServiceDoesNotExist, r2.2)
      else (some (GoError.exec e), r2.2)
    | none =>
      let r3 := runSystemCtlCommand h ["disable".toList, s.serviceSpec.Name] r2.2
      match r3.1.2 with
      | some e =>
        if contains r3.1.1 "Failed to disable".toList
            && contains r3.1.1 "does not exist".toList then
          (some GoError.ErrServiceDoesNotExist, r3.2)
        else if contains r3.1.1 "Removed".toList then (none, r3.2)
        else (some (GoError.exec e), r3.2)
      | none =>
        let r4 := runSystemCtlCommand h ["daemon-reload".toList] r3.2
        match r4.1.2 with
        | some e => (some (GoError.exec e), r4.2)
        | none =>
          let r5 := runSystemCtlCommand h ["reset-failed".toList] r4.2
          match r5.1.2 with
          | some e => (some (GoError.exec e), r5.2)
          | none => (none, r5.2)

/-- Source: `systemdService.Uninstall`. -/
def systemdService.Uninstall (h : Host) (s : systemdService) (tr : List Event) :
    Option GoError × List Event :=
  let st := s.Stop h tr
  if st.1 ≠ none ∧ ¬ helpersIs st.1 GoError.ErrServiceDoesNotExist then (st.1, st.2)
  else
    let err := h.Remove st.2 (s.filePath h)
    let tr2 := st.2 ++ [Event.remove (s.filePath h)]
    match err with
    | some e => if osIsNotExist e.Err then (none, tr2) else (some (GoError.path e), tr2)
    | none => (none, tr2)

/-- The loop of `systemdService.Info` over the lines of the status block; `none` is
the index-out-of-range panic of `lineParts[2]`. -/
def systemdService.scanLines : List GoString → Info → Option Info
  | [], result => some result
  | line :: rest, result =>
    if contains line "Main PID".toList then
      let lineParts := splitOn ' ' (trimSpace line)
      if lineParts.length ≥ 2 then
        match lineParts[2]? with
        | some p => systemdService.scanLines rest { result with PID := atoi p }
        | none => none
      else systemdService.scanLines rest result
    else if contains line "Active".toList then
      if contains line "active (running)".toList then
        systemdService.scanLines rest { result with IsRunning := true }
      else systemdService.scanLines rest result
    else systemdService.scanLines rest result

/-- Source: `systemdService.Info`, up to the query of the manager: the record built
from the file read, whose error is discarded. -/
def systemdService.fileSnapshot (h : Host) (s : systemdService) (tr : List Event) : Info :=
  let rd := h.ReadFile tr (s.filePath h)
  { Error := none, Service := s.serviceSpec, IsRunning := false, PID := -1,
    FilePath := s.filePath h, FileContent := rd.1 }

/-- Source: `systemdService.Info`. -/
def systemdService.Info (h : Host) (s : systemdService) (tr : List Event) :
    Option Service.Info × List Event :=
  let result := s.fileSnapshot h tr
  let tr1 := tr ++ [Event.readFile (s.filePath h)]
  let r := runSystemCtlCommand h ["status".toList, s.serviceSpec.Name] tr1
  match r.1.2 with
  | some e => (some { result with Error := some (GoError.exec e) }, r.2)
  | none =>
    if contains r.1.1 "could not be found".toList then
      (some { result with Error := some GoError.ErrServiceDoesNotExist }, r.2)
    else (systemdService.scanLines (splitOn '\n' r.1.1) result, r.2)

/-! ## Hosts and drivers for worked examples -/

/-- A host whose tool answers by its arguments alone, whose file read yields `file`,
whose file removal yields `rm`, and whose file write succeeds. -/
def exampleHost (root : Bool) (home : GoString)
    (tool : List GoString → GoString × Option ExecError)
    (file : GoString × Option PathError) (rm : Option PathError) : Host :=
  { IsRoot := root,
    HomeDir := home,
    ExecWithArgs := fun _ _ args => tool args,
    ReadFile := fun _ _ => file,
    WriteFile := fun _ _ _ => none,
    Remove := fun _ _ => rm,
    lowerTable := id }

/-- A descriptor with the given name and explicit log targets. -/
def exampleSpec (name : GoString) : SERVICE :=
  { Name := name,
    Logging := { StdOut := { UseDefault := false, Value := [] },
                 StdErr := { UseDefault := false, Value := [] } },
    Rest := [] }

/-- A plist driver built from a descriptor with the given name. -/
def exampleLaunchd (name : GoString) : launchdService :=
  { serviceSpec := exampleSpec name, useConfigAsFileContent := true,
    fileContentTemplate := [] }

/-- A unit driver built from a descriptor with the given name. -/
def exampleSystemd (name : GoString) : systemdService :=
  newServiceFromSERVICE_SystemD (exampleSpec name)

/-- The error of a tool run that exits with a non-zero status. -/
def exitStatus1 : ExecError := { msg := "exit status 1".toList }

/-- The path error of an operation on a file that does not exist. -/
def noSuchFile (op path : GoString) : PathError :=
  { Op := op, Path := path, Err := ENOENT }

/-- A tool that answers `out` with error `err` to the arguments that contain the verb
`verb`, and succeeds silently otherwise. -/
def answerTo (verb : GoString) (out : GoString) (err : Option ExecError)
    (args : List GoString) : GoString × Option ExecError :=
  if verb ∈ args then (out, err) else ([], none)

/-- A root host whose tool answers by the number of events issued so far. -/
def countingHost (answers : Nat → GoString × Option ExecError) : Host :=
  { IsRoot := true,
    HomeDir := "/root".toList,
    ExecWithArgs := fun tr _ _ => answers tr.length,
    ReadFile := fun _ _ => ([], none),
    WriteFile := fun _ _ _ => none,
    Remove := fun _ _ => none,
    lowerTable := id }

/-- The answers to the five commands of the unit engine's Stop, each issued after the
previous one, in the order daemon-reload, stop, disable, daemon-reload, reset-failed. -/
def stopStep (h : Host) (s : systemdService) (tr : List Event) (k : Nat) : Ran :=
  let r0 := runSystemCtlCommand h ["daemon-reload".toList] tr
  let r1 := runSystemCtlCommand h ["stop".toList, s.serviceSpec.Name] r0.2
  let r2 := runSystemCtlCommand h ["disable".toList, s.serviceSpec.Name] r1.2
  let r3 := runSystemCtlCommand h ["daemon-reload".toList] r2.2
  let r4 := runSystemCtlCommand h ["reset-failed".toList] r3.2
  match k with
  | 0 => r0
  | 1 => r1
  | 2 => r2
  | 3 => r3
  | _ => r4

/-- The five commands of the unit engine's Stop as trace events, in order. -/
def stopCommands (h : Host) (s : systemdService) : List Event :=
  [["daemon-reload".toList], ["stop".toList, s.serviceSpec.Name],
   ["disable".toList, s.serviceSpec.Name], ["daemon-reload".toList],
   ["reset-failed".toList]].map
    (fun args => Event.exec "systemctl".toList
      ((if h.IsRoot then [] else ["--user".toList]) ++ args))

/-- The trace `tr1` extends `tr` by tool runs only. -/
def OnlyRuns (tr tr1 : List Event) : Prop :=
  ∃ cmds : List (GoString × List GoString),
    tr1 = tr ++ cmds.map (fun c => Event.exec c.1 c.2)

/-- A toy pair of encoders: the text of a descriptor is its name between two tags, and
a text decodes to the descriptor named by the whole text. -/
def exampleEncoders : Encoders :=
  { SERVICEToSystemD := fun d => "[Unit]".toList ++ d.Name ++ "[/Unit]".toList,
    SystemDToSERVICE := fun t => exampleSpec t,
    SERVICEToLaunchD := fun d => "<plist>".toList ++ d.Name ++ "</plist>".toList,
    LaunchDToSERVICE := fun t => exampleSpec t }

/-! ## The parsers as the spec words them -/

/-- The plist status as the spec words it: the listing split into lines and each line
into tab-separated fields; the first row whose last field is the service name decides:
first field `-` gives PID `-1` and not running, any other first field gives that field
parsed as an integer and running; no such row gives PID `-1` and not running. -/
def listingReference (name output : GoString) : Int × Bool :=
  match ((splitOn '\n' output).map (splitOn '\t')).find?
      (fun row => row.getLast? = some name) with
  | some row =>
    match row.head? with
    | some first => if first = ['-'] then (-1, false) else (atoi first, true)
    | none => (-1, false)
  | none => (-1, false)

/-- The unit status as the spec words it, as (not-exist, PID, running): an output
containing "could not be found" is not-exist with the defaults; otherwise the PID is
the process-id token (the third token) of the line containing "Main PID" (the last one
when there are several), `-1` without such a line, and running holds exactly when some
line containing "Active" also contains "active (running)". -/
def statusReference (output : GoString) : Bool × Int × Bool :=
  if contains output "could not be found".toList then (true, -1, false)
  else
    let lines := splitOn '\n' output
    let pid : Int :=
      match (lines.filter (fun l => contains l "Main PID".toList)).getLast? with
      | some l =>
        match (splitOn ' ' (trimSpace l))[2]? with
        | some token => atoi token
        | none => -1
      | none => -1
    (false, pid,
     lines.any (fun l => contains l "Active".toList && contains l "active (running)".toList))

/-- The rows of a listing as the plist engine's Info reads them: the trimmed output
split into lines, each line split at the tabs. -/
def listingRows (output : GoString) : List (List GoString) :=
  (splitOn '\n' (trimSpace output)).map (splitOn '\t')

/-- The rows the loop of the plist engine's Info reads before it reaches a row whose
third field is the service name (all rows when there is no such row). -/
def rowsBeforeMatch (name : GoString) (rows : List (List GoString)) : List (List GoString) :=
  rows.takeWhile (fun row => !decide (row[2]? = some name))

/-- The error Info derives from the file read alone. -/
def fileError (rd : GoString × Option PathError) : Option GoError :=
  if rd.2 ≠ none ∨ rd.1.length ≤ 0 then some GoError.ErrServiceDoesNotExist else none

/-- A line of the status block with the main-process-id marker. -/
def isMainPidLine (l : GoString) : Bool := contains l "Main PID".toList

/-- The third space-separated token of a trimmed line (empty when there is none). -/
def pidToken (l : GoString) : GoString := ((splitOn ' ' (trimSpace l))[2]?).getD []

/-- The last line of the status block with the main-process-id marker. -/
def lastMainPidLine (lines : List GoString) : Option GoString :=
  (lines.filter isMainPidLine).getLast?

/-- A line without the main-process-id marker that contains "Active" and
"active (running)". -/
def reportsRunning (l : GoString) : Bool :=
  !contains l "Main PID".toList && contains l "Active".toList
    && contains l "active (running)".toList

end Service

namespace Service

/-! ## Lemmas on the string primitives -/

theorem startsWith_self (s : GoString) : startsWith s s = true := by
  induction s with
  | nil => rfl
  | cons c s ih => simp [startsWith, ih]

theorem contains_self (s : GoString) : contains s s = true := by
  cases s with
  | nil => rfl
  | cons c s => simp [contains, startsWith_self]

theorem contains_append_right (a b : GoString) : contains (a ++ b) b = true := by
  induction a with
  | nil => simpa using contains_self b
  | cons c a ih => simp [contains, ih]

theorem toLower_append (t : Char → Char) (a b : GoString) :
    toLower t (a ++ b) = toLower t a ++ toLower t b := by
  simp [toLower]

theorem toLower_noSuchFile (t : Char → Char) :
    toLower t "no such file or directory".toList = "no such file or directory".toList := by
  rfl

theorem contains_lower_enoent (t : Char → Char) (e : PathError) (he : e.Err = ENOENT) :
    contains (toLower t e.Error) "no such file or directory".toList = true := by
  have h2 : errnoText e.Err = "no such file or directory".toList := by
    rw [he]; decide
  unfold PathError.Error
  rw [h2, toLower_append, toLower_noSuchFile]
  exact contains_append_right _ _

/-! ## Lemmas on the traces -/

theorem runLaunchCtlCommand_trace (h : Host) (args : List GoString) (tr : List Event) :
    (runLaunchCtlCommand h args tr).2 = tr ++ [Event.exec "launchctl".toList args] := rfl

theorem runSystemCtlCommand_trace (h : Host) (args : List GoString) (tr : List Event) :
    (runSystemCtlCommand h args tr).2 =
      tr ++ [Event.exec "systemctl".toList
        ((if h.IsRoot then [] else ["--user".toList]) ++ args)] := by
  cases hr : h.IsRoot <;> simp [runSystemCtlCommand, hr]

theorem OnlyRuns.refl (tr : List Event) : OnlyRuns tr tr := ⟨[], by simp⟩

theorem OnlyRuns.launchctl {h : Host} {tr tr1 : List Event} (args : List GoString)
    (p : OnlyRuns tr tr1) : OnlyRuns tr (runLaunchCtlCommand h args tr1).2 := by
  obtain ⟨cmds, rfl⟩ := p
  exact ⟨cmds ++ [("launchctl".toList, args)], by simp [runLaunchCtlCommand]⟩

theorem OnlyRuns.systemctl {h : Host} {tr tr1 : List Event} (args : List GoString)
    (p : OnlyRuns tr tr1) : OnlyRuns tr (runSystemCtlCommand h args tr1).2 := by
  obtain ⟨cmds, rfl⟩ := p
  exact ⟨cmds ++ [("systemctl".toList, (if h.IsRoot then [] else ["--user".toList]) ++ args)],
    by simp [runSystemCtlCommand_trace]⟩

theorem OnlyRuns.no_remove {tr tr1 : List Event} (p : OnlyRuns tr tr1) (path : GoString)
    (hmem : Event.remove path ∈ tr1) : Event.remove path ∈ tr := by
  obtain ⟨cmds, rfl⟩ := p
  simpa using hmem

theorem launchd_Stop_onlyRuns (h : Host) (s : launchdService) (tr : List Event) :
    OnlyRuns tr (s.Stop h tr).2 := by
  have key : OnlyRuns tr (runLaunchCtlCommand h ["unload".toList, s.filePath h]
      (runLaunchCtlCommand h ["stop".toList, s.serviceSpec.Name] tr).2).2 :=
    ((OnlyRuns.refl tr).launchctl _).launchctl _
  simp only [launchdService.Stop]
  split <;> exact key

theorem systemd_Stop_onlyRuns (h : Host) (s : systemdService) (tr : List Event) :
    OnlyRuns tr (s.Stop h tr).2 := by
  have k1 := (OnlyRuns.refl tr).systemctl (h := h) ["daemon-reload".toList]
  have k2 := k1.systemctl (h := h) ["stop".toList, s.serviceSpec.Name]
  have k3 := k2.systemctl (h := h) ["disable".toList, s.serviceSpec.Name]
  have k4 := k3.systemctl (h := h) ["daemon-reload".toList]
  have k5 := k4.systemctl (h := h) ["reset-failed".toList]
  simp only [systemdService.Stop]
  repeat' split
  all_goals first | exact k1 | exact k2 | exact k3 | exact k4 | exact k5

/-! ## Start on a service that was never installed -/

/-- C3. Start on a never-installed service returns `ErrServiceDoesNotExist` in both
engines. Plist engine: when the output of `load -w <path>` contains "No such file or
directory", Start returns the typed error and the only command issued is the load.
Unit engine: when daemon-reload succeeds and `enable <name>` fails with output
containing "Failed to enable unit" and "does not exist", Start returns the typed error
and the only commands issued are the reload and the enable; `start` is not issued. -/
theorem Start_never_installed
    (hl : Host) (sl : launchdService) (trl : List Event)
    (hd : Host) (sd : systemdService) (trd : List Event)
    (hload : contains
      (runLaunchCtlCommand hl ["load".toList, "-w".toList, sl.filePath hl] trl).1.1
      "No such file or directory".toList = true)
    (hreload : (runSystemCtlCommand hd ["daemon-reload".toList] trd).1.2 = none)
    (henable : (runSystemCtlCommand hd ["enable".toList, sd.serviceSpec.Name]
      (runSystemCtlCommand hd ["daemon-reload".toList] trd).2).1.2 ≠ none)
    (hphrase1 : contains (runSystemCtlCommand hd ["enable".toList, sd.serviceSpec.Name]
      (runSystemCtlCommand hd ["daemon-reload".toList] trd).2).1.1
      "Failed to enable unit".toList = true)
    (hphrase2 : contains (runSystemCtlCommand hd ["enable".toList, sd.serviceSpec.Name]
      (runSystemCtlCommand hd ["daemon-reload".toList] trd).2).1.1
      "does not exist".toList = true) :
    sl.Start hl trl =
        (some GoError.ErrServiceDoesNotExist,
         trl ++ [Event.exec "launchctl".toList
                  ["load".toList, "-w".toList, sl.filePath hl]])
      ∧ sd.Start hd trd =
        (some GoError.ErrServiceDoesNotExist,
         trd ++ [Event.exec "systemctl".toList
                   ((if hd.IsRoot then [] else ["--user".toList]) ++
                     ["daemon-reload".toList]),
                 Event.exec "systemctl".toList
                   ((if hd.IsRoot then [] else ["--user".toList]) ++
                     ["enable".toList, sd.serviceSpec.Name])]) := by
  constructor
  · simp only [launchdService.Start, hload, if_true]
    rfl
  · cases hen : (runSystemCtlCommand hd ["enable".toList, sd.serviceSpec.Name]
        (runSystemCtlCommand hd ["daemon-reload".toList] trd).2).1.2 with
    | none => exact absurd hen henable
    | some e =>
      simp only [systemdService.Start, hreload, hen, hphrase1, hphrase2, Bool.and_self,
        if_true]
      cases hr : hd.IsRoot <;> simp [runSystemCtlCommand, hr]

/-- Witness for C3: a plist host whose load answers "No such file or directory" and a
unit host whose enable fails with "Failed to enable unit: Unit file demo.service does
not exist." -/
theorem Start_never_installed_witness :
    (exampleLaunchd "demo".toList).Start
        (exampleHost false "/Users/u".toList
          (answerTo "load".toList
            "/Users/u/Library/LaunchAgents/demo.plist: No such file or directory".toList none)
          ([], none) none) [] =
        (some GoError.ErrServiceDoesNotExist,
         [Event.exec "launchctl".toList
            ["load".toList, "-w".toList, "/Users/u/Library/LaunchAgents/demo.plist".toList]])
      ∧ (exampleSystemd "demo".toList).Start
        (exampleHost true "/root".toList
          (answerTo "enable".toList
            "Failed to enable unit: Unit file demo.service does not exist.".toList
            (some exitStatus1))
          ([], none) none) [] =
        (some GoError.ErrServiceDoesNotExist,
         [Event.exec "systemctl".toList ["daemon-reload".toList],
          Event.exec "systemctl".toList ["enable".toList, "demo".toList]]) :=
  Start_never_installed
    (exampleHost false "/Users/u".toList
      (answerTo "load".toList
        "/Users/u/Library/LaunchAgents/demo.plist: No such file or directory".toList none)
      ([], none) none)
    (exampleLaunchd "demo".toList) []
    (exampleHost true "/root".toList
      (answerTo "enable".toList
        "Failed to enable unit: Unit file demo.service does not exist.".toList
        (some exitStatus1))
      ([], none) none)
    (exampleSystemd "demo".toList) []
    (by decide) (by decide) (by decide) (by decide) (by decide)

/-! ## Uninstall on a service that is already absent -/

/-- C4. Uninstall on an already-absent service returns no error, in both engines: when
the Stop step returns nil or `ErrServiceDoesNotExist` and deleting the config file fails
because the file does not exist, Uninstall returns nil. Any other Stop error is
returned unchanged, and the file is not deleted: the trace is the one Stop left, and it
holds no removal that was not there before. -/
theorem Uninstall_absent
    (hl : Host) (sl : launchdService) (trl : List Event) (el : PathError)
    (hd : Host) (sd : systemdService) (trd : List Event) (ed : PathError)
    (hl2 : Host) (sl2 : launchdService) (trl2 : List Event) (el2 : GoError)
    (hd2 : Host) (sd2 : systemdService) (trd2 : List Event) (ed2 : GoError)
    (hstopl : (sl.Stop hl trl).1 = none ∨
      (sl.Stop hl trl).1 = some GoError.ErrServiceDoesNotExist)
    (hrml : hl.Remove (sl.Stop hl trl).2 (sl.filePath hl) = some el)
    (hmissl : el.Err = ENOENT)
    (hstopd : (sd.Stop hd trd).1 = none ∨
      (sd.Stop hd trd).1 = some GoError.ErrServiceDoesNotExist)
    (hrmd : hd.Remove (sd.Stop hd trd).2 (sd.filePath hd) = some ed)
    (hmissd : ed.Err = ENOENT)
    (hotherl : (sl2.Stop hl2 trl2).1 = some el2)
    (hnel : el2 ≠ GoError.ErrServiceDoesNotExist)
    (hotherd : (sd2.Stop hd2 trd2).1 = some ed2)
    (hned : ed2 ≠ GoError.ErrServiceDoesNotExist) :
    (sl.Uninstall hl trl).1 = none
      ∧ (sd.Uninstall hd trd).1 = none
      ∧ sl2.Uninstall hl2 trl2 = (some el2, (sl2.Stop hl2 trl2).2)
      ∧ (∀ p, Event.remove p ∈ (sl2.Uninstall hl2 trl2).2 → Event.remove p ∈ trl2)
      ∧ sd2.Uninstall hd2 trd2 = (some ed2, (sd2.Stop hd2 trd2).2)
      ∧ (∀ p, Event.remove p ∈ (sd2.Uninstall hd2 trd2).2 → Event.remove p ∈ trd2) := by
  have a1 : (sl.Uninstall hl trl).1 = none := by
    have hc := contains_lower_enoent hl.lowerTable el hmissl
    rcases hstopl with h | h <;>
      simp [launchdService.Uninstall, h, helpersIs, hrml] <;>
      simp only [String.toList] at hc <;>
      simp [hc]
  have a2 : (sd.Uninstall hd trd).1 = none := by
    have hc : osIsNotExist ed.Err = true := by simp [osIsNotExist, hmissd]
    rcases hstopd with h | h <;>
      simp [systemdService.Uninstall, h, helpersIs, hrmd, hc]
  have a3 : sl2.Uninstall hl2 trl2 = (some el2, (sl2.Stop hl2 trl2).2) := by
    simp [launchdService.Uninstall, hotherl, helpersIs, hnel]
  have a4 : sd2.Uninstall hd2 trd2 = (some ed2, (sd2.Stop hd2 trd2).2) := by
    simp [systemdService.Uninstall, hotherd, helpersIs, hned]
  refine ⟨a1, a2, a3, ?_, a4, ?_⟩
  · intro p hp
    rw [a3] at hp
    exact (launchd_Stop_onlyRuns hl2 sl2 trl2).no_remove p hp
  · intro p hp
    rw [a4] at hp
    exact (systemd_Stop_onlyRuns hd2 sd2 trd2).no_remove p hp

/-- Witness for C4: hosts on which Stop succeeds and the removal reports a missing
file, and hosts on which `unload` (plist) and `stop` (unit) fail with an unmatched
output. -/
theorem Uninstall_absent_witness :
    ((exampleLaunchd "demo".toList).Uninstall
        (exampleHost true [] (fun _ => ([], none)) ([], none)
          (some (noSuchFile "remove".toList "/Library/LaunchDaemons/demo.plist".toList)))
        []).1 = none
      ∧ ((exampleSystemd "demo".toList).Uninstall
        (exampleHost true [] (fun _ => ([], none)) ([], none)
          (some (noSuchFile "remove".toList "/etc/systemd/system/demo.service".toList)))
        []).1 = none
      ∧ ((exampleLaunchd "demo".toList).Uninstall
        (exampleHost true [] (answerTo "unload".toList "boom".toList (some exitStatus1))
          ([], none) none) []).1 = some (GoError.exec exitStatus1)
      ∧ ((exampleSystemd "demo".toList).Uninstall
        (exampleHost true [] (answerTo "stop".toList "boom".toList (some exitStatus1))
          ([], none) none) []).1 = some (GoError.exec exitStatus1) := by
  have w := Uninstall_absent
    (exampleHost true [] (fun _ => ([], none)) ([], none)
      (some (noSuchFile "remove".toList "/Library/LaunchDaemons/demo.plist".toList)))
    (exampleLaunchd "demo".toList) []
    (noSuchFile "remove".toList "/Library/LaunchDaemons/demo.plist".toList)
    (exampleHost true [] (fun _ => ([], none)) ([], none)
      (some (noSuchFile "remove".toList "/etc/systemd/system/demo.service".toList)))
    (exampleSystemd "demo".toList) []
    (noSuchFile "remove".toList "/etc/systemd/system/demo.service".toList)
    (exampleHost true [] (answerTo "unload".toList "boom".toList (some exitStatus1))
      ([], none) none)
    (exampleLaunchd "demo".toList) [] (GoError.exec exitStatus1)
    (exampleHost true [] (answerTo "stop".toList "boom".toList (some exitStatus1))
      ([], none) none)
    (exampleSystemd "demo".toList) [] (GoError.exec exitStatus1)
    (by decide) (by decide) (by decide) (by decide) (by decide) (by decide)
    (by decide) (by decide) (by decide) (by decide)
  exact ⟨w.1, w.2.1, by rw [w.2.2.1], by rw [w.2.2.2.2.1]⟩

/-! ## The unit engine's Stop -/

theorem stopStep_trace (h : Host) (s : systemdService) (tr : List Event) (k : Nat)
    (hk : k < 5) : (stopStep h s tr k).2 = tr ++ (stopCommands h s).take (k + 1) := by
  have h0 : (stopStep h s tr 0).2 = tr ++ (stopCommands h s).take 1 := by
    simp [stopStep, stopCommands, runSystemCtlCommand_trace]
  have h1 : (stopStep h s tr 1).2 = tr ++ (stopCommands h s).take 2 := by
    simp [stopStep, stopCommands, runSystemCtlCommand_trace]
  have h2 : (stopStep h s tr 2).2 = tr ++ (stopCommands h s).take 3 := by
    simp [stopStep, stopCommands, runSystemCtlCommand_trace]
  have h3 : (stopStep h s tr 3).2 = tr ++ (stopCommands h s).take 4 := by
    simp [stopStep, stopCommands, runSystemCtlCommand_trace]
  have h4 : (stopStep h s tr 4).2 = tr ++ (stopCommands h s).take 5 := by
    simp [stopStep, stopCommands, runSystemCtlCommand_trace]
  match k, hk with
  | 0, _ => exact h0
  | 1, _ => exact h1
  | 2, _ => exact h2
  | 3, _ => exact h3
  | 4, _ => exact h4

/-- C9, the claim as stated fails, at two hosts. On the first, daemon-reload and stop
succeed and disable fails with an output that contains "Removed" and also "Failed to
disable" and "does not exist": the claim's "Removed" clause gives nil, Stop returns
`ErrServiceDoesNotExist`. On the second, a first Stop succeeds in all five steps and
the tool then answers the `stop` of a second Stop, issued right after, with the error
"Failed to stop demo.service: Unit demo.service is not running.": the second Stop
returns that generic error, solely because the service is already stopped. -/
theorem Stop_removed_not_unconditional :
    (stopStep
        (exampleHost true [] (answerTo "disable".toList
          "Removed /etc/systemd/system/x. Failed to disable unit: Unit file demo.service does not exist.".toList
          (some exitStatus1)) ([], none) none)
        (exampleSystemd "demo".toList) [] 0).1.2 = none
      ∧ (stopStep
        (exampleHost true [] (answerTo "disable".toList
          "Removed /etc/systemd/system/x. Failed to disable unit: Unit file demo.service does not exist.".toList
          (some exitStatus1)) ([], none) none)
        (exampleSystemd "demo".toList) [] 1).1.2 = none
      ∧ (stopStep
        (exampleHost true [] (answerTo "disable".toList
          "Removed /etc/systemd/system/x. Failed to disable unit: Unit file demo.service does not exist.".toList
          (some exitStatus1)) ([], none) none)
        (exampleSystemd "demo".toList) [] 2).1.2 = some exitStatus1
      ∧ contains (stopStep
        (exampleHost true [] (answerTo "disable".toList
          "Removed /etc/systemd/system/x. Failed to disable unit: Unit file demo.service does not exist.".toList
          (some exitStatus1)) ([], none) none)
        (exampleSystemd "demo".toList) [] 2).1.1 "Removed".toList = true
      ∧ ((exampleSystemd "demo".toList).Stop
        (exampleHost true [] (answerTo "disable".toList
          "Removed /etc/systemd/system/x. Failed to disable unit: Unit file demo.service does not exist.".toList
          (some exitStatus1)) ([], none) none) []).1
        = some GoError.ErrServiceDoesNotExist
      ∧ ((exampleSystemd "demo".toList).Stop
        (exampleHost true [] (answerTo "disable".toList
          "Removed /etc/systemd/system/x. Failed to disable unit: Unit file demo.service does not exist.".toList
          (some exitStatus1)) ([], none) none) []).1 ≠ none
      ∧ (exampleSystemd "demo".toList).Stop
        (countingHost (fun n => if n = 6 then
          ("Failed to stop demo.service: Unit demo.service is not running.".toList,
            some exitStatus1) else ([], none))) [] =
        (none, stopCommands (countingHost (fun _ => ([], none)))
          (exampleSystemd "demo".toList))
      ∧ ((exampleSystemd "demo".toList).Stop
        (countingHost (fun n => if n = 6 then
          ("Failed to stop demo.service: Unit demo.service is not running.".toList,
            some exitStatus1) else ([], none)))
        ((exampleSystemd "demo".toList).Stop
          (countingHost (fun n => if n = 6 then
            ("Failed to stop demo.service: Unit demo.service is not running.".toList,
              some exitStatus1) else ([], none))) []).2).1 =
        some (GoError.exec exitStatus1) := by
  decide

/-- The rows of the unit engine's Stop: the trace after step `k` is the first `k + 1`
of the five commands, and the result is decided by the first failing step and the
phrases in its output. -/
theorem Stop_rows (h : Host) (s : systemdService) (tr : List Event) :
    (∀ k, k < 5 → (stopStep h s tr k).2 = tr ++ (stopCommands h s).take (k + 1))
    ∧ (∀ e, (stopStep h s tr 0).1.2 = some e →
        s.Stop h tr = (some (GoError.exec e), (stopStep h s tr 0).2))
    ∧ ((stopStep h s tr 0).1.2 = none →
        (∀ e, (stopStep h s tr 1).1.2 = some e →
          (contains (stopStep h s tr 1).1.1 "Failed to stop".toList = true →
            contains (stopStep h s tr 1).1.1 "not loaded".toList = true →
            s.Stop h tr = (some GoError.ErrServiceDoesNotExist, (stopStep h s tr 1).2))
          ∧ (¬ (contains (stopStep h s tr 1).1.1 "Failed to stop".toList = true ∧
                contains (stopStep h s tr 1).1.1 "not loaded".toList = true) →
            s.Stop h tr = (some (GoError.exec e), (stopStep h s tr 1).2)))
        ∧ ((stopStep h s tr 1).1.2 = none →
          (∀ e, (stopStep h s tr 2).1.2 = some e →
            (contains (stopStep h s tr 2).1.1 "Failed to disable".toList = true →
              contains (stopStep h s tr 2).1.1 "does not exist".toList = true →
              s.Stop h tr = (some GoError.ErrServiceDoesNotExist, (stopStep h s tr 2).2))
            ∧ (¬ (contains (stopStep h s tr 2).1.1 "Failed to disable".toList = true ∧
                  contains (stopStep h s tr 2).1.1 "does not exist".toList = true) →
              (contains (stopStep h s tr 2).1.1 "Removed".toList = true →
                s.Stop h tr = (none, (stopStep h s tr 2).2))
              ∧ (contains (stopStep h s tr 2).1.1 "Removed".toList = false →
                s.Stop h tr = (some (GoError.exec e), (stopStep h s tr 2).2))))
          ∧ ((stopStep h s tr 2).1.2 = none →
            (∀ e, (stopStep h s tr 3).1.2 = some e →
              s.Stop h tr = (some (GoError.exec e), (stopStep h s tr 3).2))
            ∧ ((stopStep h s tr 3).1.2 = none →
              (∀ e, (stopStep h s tr 4).1.2 = some e →
                s.Stop h tr = (some (GoError.exec e), (stopStep h s tr 4).2))
              ∧ ((stopStep h s tr 4).1.2 = none →
                s.Stop h tr = (none, (stopStep h s tr 4).2)))))) := by
  refine ⟨fun k hk => stopStep_trace h s tr k hk, ?_, ?_⟩
  · intro e he
    simp only [stopStep] at he ⊢
    simp only [systemdService.Stop, he]
  · intro h0
    simp only [stopStep] at h0 ⊢
    refine ⟨?_, ?_⟩
    · intro e he
      refine ⟨?_, ?_⟩
      · intro p1 p2
        simp only [systemdService.Stop, h0, he, p1, p2, Bool.and_self, if_true]
      · intro np
        have : (contains (runSystemCtlCommand h ["stop".toList, s.serviceSpec.Name]
              (runSystemCtlCommand h ["daemon-reload".toList] tr).2).1.1
              "Failed to stop".toList
            && contains (runSystemCtlCommand h ["stop".toList, s.serviceSpec.Name]
              (runSystemCtlCommand h ["daemon-reload".toList] tr).2).1.1
              "not loaded".toList) = false := by
          simpa [Bool.and_eq_true] using np
        simp only [systemdService.Stop, h0, he, this]
        simp
    · intro h1
      refine ⟨?_, ?_⟩
      · intro e he
        refine ⟨?_, ?_⟩
        · intro p1 p2
          simp only [systemdService.Stop, h0, h1, he, p1, p2, Bool.and_self, if_true]
        · intro np
          have : (contains (runSystemCtlCommand h ["disable".toList, s.serviceSpec.Name]
                (runSystemCtlCommand h ["stop".toList, s.serviceSpec.Name]
                  (runSystemCtlCommand h ["daemon-reload".toList] tr).2).2).1.1
                "Failed to disable".toList
              && contains (runSystemCtlCommand h ["disable".toList, s.serviceSpec.Name]
                (runSystemCtlCommand h ["stop".toList, s.serviceSpec.Name]
                  (runSystemCtlCommand h ["daemon-reload".toList] tr).2).2).1.1
                "does not exist".toList) = false := by
            simpa [Bool.and_eq_true] using np
          refine ⟨?_, ?_⟩
          · intro pr
            simp only [systemdService.Stop, h0, h1, he, this, pr]
            simp
          · intro pr
            simp only [systemdService.Stop, h0, h1, he, this, pr]
            simp
      · intro h2
        refine ⟨?_, ?_⟩
        · intro e he
          simp only [systemdService.Stop, h0, h1, h2, he]
        · intro h3
          refine ⟨?_, ?_⟩
          · intro e he
            simp only [systemdService.Stop, h0, h1, h2, h3, he]
          · intro h4
            simp only [systemdService.Stop, h0, h1, h2, h3, h4]

/-- C9, amended. The unit engine's Stop issues daemon-reload, stop, disable,
daemon-reload, reset-failed in this order and stops at the first failing step
(the trace after step `k` is the first `k + 1` commands). Result: nil when all five
succeed; nil when disable fails with output containing "Removed" and not containing
both "Failed to disable" and "does not exist"; `ErrServiceDoesNotExist` when stop fails
with "Failed to stop" and "not loaded", or disable fails with "Failed to disable" and
"does not exist"; otherwise the failing step's own error. Consequently a second Stop
right after a successful Stop, whose daemon-reload succeeds and whose stop or disable
step fails with one of these phrases, returns nil or `ErrServiceDoesNotExist`, not a
generic failure; by the last row it returns the step's own error when the tool words
the failure otherwise. -/
theorem Stop_table (h : Host) (s : systemdService) (tr : List Event) :
    ((∀ k, k < 5 → (stopStep h s tr k).2 = tr ++ (stopCommands h s).take (k + 1))
    ∧ (∀ e, (stopStep h s tr 0).1.2 = some e →
        s.Stop h tr = (some (GoError.exec e), (stopStep h s tr 0).2))
    ∧ ((stopStep h s tr 0).1.2 = none →
        (∀ e, (stopStep h s tr 1).1.2 = some e →
          (contains (stopStep h s tr 1).1.1 "Failed to stop".toList = true →
            contains (stopStep h s tr 1).1.1 "not loaded".toList = true →
            s.Stop h tr = (some GoError.ErrServiceDoesNotExist, (stopStep h s tr 1).2))
          ∧ (¬ (contains (stopStep h s tr 1).1.1 "Failed to stop".toList = true ∧
                contains (stopStep h s tr 1).1.1 "not loaded".toList = true) →
            s.Stop h tr = (some (GoError.exec e), (stopStep h s tr 1).2)))
        ∧ ((stopStep h s tr 1).1.2 = none →
          (∀ e, (stopStep h s tr 2).1.2 = some e →
            (contains (stopStep h s tr 2).1.1 "Failed to disable".toList = true →
              contains (stopStep h s tr 2).1.1 "does not exist".toList = true →
              s.Stop h tr = (some GoError.ErrServiceDoesNotExist, (stopStep h s tr 2).2))
            ∧ (¬ (contains (stopStep h s tr 2).1.1 "Failed to disable".toList = true ∧
                  contains (stopStep h s tr 2).1.1 "does not exist".toList = true) →
              (contains (stopStep h s tr 2).1.1 "Removed".toList = true →
                s.Stop h tr = (none, (stopStep h s tr 2).2))
              ∧ (contains (stopStep h s tr 2).1.1 "Removed".toList = false →
                s.Stop h tr = (some (GoError.exec e), (stopStep h s tr 2).2))))
          ∧ ((stopStep h s tr 2).1.2 = none →
            (∀ e, (stopStep h s tr 3).1.2 = some e →
              s.Stop h tr = (some (GoError.exec e), (stopStep h s tr 3).2))
            ∧ ((stopStep h s tr 3).1.2 = none →
              (∀ e, (stopStep h s tr 4).1.2 = some e →
                s.Stop h tr = (some (GoError.exec e), (stopStep h s tr 4).2))
              ∧ ((stopStep h s tr 4).1.2 = none →
                s.Stop h tr = (none, (stopStep h s tr 4).2)))))))
    ∧ ((s.Stop h tr).1 = none →
        (stopStep h s (s.Stop h tr).2 0).1.2 = none →
        ((∃ e, (stopStep h s (s.Stop h tr).2 1).1.2 = some e
            ∧ contains (stopStep h s (s.Stop h tr).2 1).1.1 "Failed to stop".toList = true
            ∧ contains (stopStep h s (s.Stop h tr).2 1).1.1 "not loaded".toList = true)
          ∨ ((stopStep h s (s.Stop h tr).2 1).1.2 = none
            ∧ ∃ e, (stopStep h s (s.Stop h tr).2 2).1.2 = some e
              ∧ ((contains (stopStep h s (s.Stop h tr).2 2).1.1
                      "Failed to disable".toList = true
                    ∧ contains (stopStep h s (s.Stop h tr).2 2).1.1
                      "does not exist".toList = true)
                  ∨ contains (stopStep h s (s.Stop h tr).2 2).1.1
                      "Removed".toList = true))) →
        (s.Stop h (s.Stop h tr).2).1 = none
          ∨ (s.Stop h (s.Stop h tr).2).1 = some GoError.ErrServiceDoesNotExist) := by
  refine ⟨Stop_rows h s tr, ?_⟩
  intro _ h0 hcase
  have r := (Stop_rows h s (s.Stop h tr).2).2.2 h0
  rcases hcase with ⟨e, he, p1, p2⟩ | ⟨h1, e, he, hp⟩
  · right
    rw [(r.1 e he).1 p1 p2]
  · by_cases hb : contains (stopStep h s (s.Stop h tr).2 2).1.1
          "Failed to disable".toList = true
        ∧ contains (stopStep h s (s.Stop h tr).2 2).1.1 "does not exist".toList = true
    · right
      rw [((r.2 h1).1 e he).1 hb.1 hb.2]
    · rcases hp with hboth | hrem
      · exact absurd hboth hb
      · left
        rw [(((r.2 h1).1 e he).2 hb).1 hrem]

/-- Witness for C9: one host for each row of the table, and a host on which a second
Stop right after a successful Stop meets "Failed to stop ... not loaded". -/
theorem Stop_table_witness :
    (exampleSystemd "demo".toList).Stop
        (exampleHost true [] (fun _ => ([], none)) ([], none) none) [] =
        (none, stopCommands (exampleHost true [] (fun _ => ([], none)) ([], none) none)
          (exampleSystemd "demo".toList))
      ∧ (exampleSystemd "demo".toList).Stop
        (exampleHost true [] (answerTo "disable".toList
          "Removed /etc/systemd/system/multi-user.target.wants/demo.service.".toList
          (some exitStatus1)) ([], none) none) [] =
        (none, (stopCommands (exampleHost true [] (fun _ => ([], none)) ([], none) none)
          (exampleSystemd "demo".toList)).take 3)
      ∧ ((exampleSystemd "demo".toList).Stop
        (exampleHost true [] (answerTo "stop".toList
          "Failed to stop demo.service: Unit demo.service not loaded.".toList
          (some exitStatus1)) ([], none) none) []).1 = some GoError.ErrServiceDoesNotExist
      ∧ ((exampleSystemd "demo".toList).Stop
        (exampleHost true [] (answerTo "disable".toList
          "Failed to disable unit: Unit file demo.service does not exist.".toList
          (some exitStatus1)) ([], none) none) []).1 = some GoError.ErrServiceDoesNotExist
      ∧ ((exampleSystemd "demo".toList).Stop
        (countingHost (fun n => if n = 0 then ("boom".toList, some exitStatus1)
          else ([], none))) []).1 = some (GoError.exec exitStatus1)
      ∧ ((exampleSystemd "demo".toList).Stop
        (exampleHost true [] (answerTo "stop".toList "boom".toList (some exitStatus1))
          ([], none) none) []).1 = some (GoError.exec exitStatus1)
      ∧ ((exampleSystemd "demo".toList).Stop
        (exampleHost true [] (answerTo "disable".toList "boom".toList (some exitStatus1))
          ([], none) none) []).1 = some (GoError.exec exitStatus1)
      ∧ ((exampleSystemd "demo".toList).Stop
        (countingHost (fun n => if n = 3 then ("boom".toList, some exitStatus1)
          else ([], none))) []).1 = some (GoError.exec exitStatus1)
      ∧ ((exampleSystemd "demo".toList).Stop
        (exampleHost true [] (answerTo "reset-failed".toList "boom".toList
          (some exitStatus1)) ([], none) none) []).1 = some (GoError.exec exitStatus1)
      ∧ (((exampleSystemd "demo".toList).Stop
          (countingHost (fun n => if n = 6 then
            ("Failed to stop demo.service: Unit demo.service not loaded.".toList,
              some exitStatus1) else ([], none)))
          ((exampleSystemd "demo".toList).Stop
            (countingHost (fun n => if n = 6 then
              ("Failed to stop demo.service: Unit demo.service not loaded.".toList,
                some exitStatus1) else ([], none))) []).2).1 = none
        ∨ ((exampleSystemd "demo".toList).Stop
          (countingHost (fun n => if n = 6 then
            ("Failed to stop demo.service: Unit demo.service not loaded.".toList,
              some exitStatus1) else ([], none)))
          ((exampleSystemd "demo".toList).Stop
            (countingHost (fun n => if n = 6 then
              ("Failed to stop demo.service: Unit demo.service not loaded.".toList,
                some exitStatus1) else ([], none))) []).2).1 =
          some GoError.ErrServiceDoesNotExist) := by
  refine ⟨?_, ?_, ?_, ?_, ?_, ?_, ?_, ?_, ?_, ?_⟩
  · exact (((((Stop_table (exampleHost true [] (fun _ => ([], none)) ([], none) none)
      (exampleSystemd "demo".toList) []).1.2.2 (by decide)).2 (by decide)).2
      (by decide)).2 (by decide)).2 (by decide)
  · exact (((((Stop_table (exampleHost true [] (answerTo "disable".toList
        "Removed /etc/systemd/system/multi-user.target.wants/demo.service.".toList
        (some exitStatus1)) ([], none) none)
      (exampleSystemd "demo".toList) []).1.2.2 (by decide)).2 (by decide)).1
      exitStatus1 (by decide)).2 (by decide)).1 (by decide)
  · rw [(((Stop_table (exampleHost true [] (answerTo "stop".toList
        "Failed to stop demo.service: Unit demo.service not loaded.".toList
        (some exitStatus1)) ([], none) none)
      (exampleSystemd "demo".toList) []).1.2.2 (by decide)).1
      exitStatus1 (by decide)).1 (by decide) (by decide)]
  · rw [((((Stop_table (exampleHost true [] (answerTo "disable".toList
        "Failed to disable unit: Unit file demo.service does not exist.".toList
        (some exitStatus1)) ([], none) none)
      (exampleSystemd "demo".toList) []).1.2.2 (by decide)).2 (by decide)).1
      exitStatus1 (by decide)).1 (by decide) (by decide)]
  · rw [(Stop_table (countingHost (fun n => if n = 0 then ("boom".toList, some exitStatus1)
        else ([], none))) (exampleSystemd "demo".toList) []).1.2.1 exitStatus1 (by decide)]
  · rw [(((Stop_table (exampleHost true [] (answerTo "stop".toList "boom".toList
        (some exitStatus1)) ([], none) none)
      (exampleSystemd "demo".toList) []).1.2.2 (by decide)).1
      exitStatus1 (by decide)).2 (by decide)]
  · rw [(((((Stop_table (exampleHost true [] (answerTo "disable".toList "boom".toList
        (some exitStatus1)) ([], none) none)
      (exampleSystemd "demo".toList) []).1.2.2 (by decide)).2 (by decide)).1
      exitStatus1 (by decide)).2 (by decide)).2 (by decide)]
  · rw [(((((Stop_table (countingHost (fun n => if n = 3 then ("boom".toList, some exitStatus1)
        else ([], none))) (exampleSystemd "demo".toList) []).1.2.2 (by decide)).2
      (by decide)).2 (by decide)).1 exitStatus1 (by decide))]
  · rw [((((((Stop_table (exampleHost true [] (answerTo "reset-failed".toList "boom".toList
        (some exitStatus1)) ([], none) none)
      (exampleSystemd "demo".toList) []).1.2.2 (by decide)).2 (by decide)).2
      (by decide)).2 (by decide)).1 exitStatus1 (by decide))]
  · exact (Stop_table (countingHost (fun n => if n = 6 then
        ("Failed to stop demo.service: Unit demo.service not loaded.".toList,
          some exitStatus1) else ([], none))) (exampleSystemd "demo".toList) []).2
      (by decide) (by decide)
      (Or.inl ⟨exitStatus1, by decide, by decide, by decide⟩)

/-! ## Install in raw-template mode -/

theorem systemd_Install_writes (enc : Encoders) (h : Host) (s : systemdService)
    (tr : List Event) :
    (s.Install enc h tr).2 =
      tr ++ [Event.mkdirAll (Dir (s.filePath h)),
             Event.writeFile (s.filePath h)
               (if s.useConfigAsFileContent then enc.SERVICEToSystemD s.serviceSpec
                else s.fileContentTemplate)] := by
  simp only [systemdService.Install]
  cases s.useConfigAsFileContent <;> split <;> simp

theorem launchd_Install_writes (enc : Encoders) (h : Host) (s : launchdService)
    (tr : List Event) :
    (s.Install enc h tr).2 =
      tr ++ [Event.mkdirAll (Dir (s.filePath h)),
             Event.writeFile (s.filePath h) (enc.SERVICEToLaunchD s.serviceSpec)] := by
  simp only [launchdService.Install]
  split <;> simp

/-- C1, the code at the failing input. In raw-template mode the unit engine's Install
writes the template `t` itself, for every template; the plist engine's Install writes
the encoder's output for the decoded template, never reading the mode flag or the
stored template; with the toy encoders and the template `x` the written content is
`<plist>x</plist>`, not `x`. -/
theorem Install_raw_template_content (enc : Encoders) (h : Host) (name t : GoString)
    (tr : List Event) :
    ((newServiceFromPlatformTemplate_SystemD enc name t).1.Install enc h tr).2 =
        tr ++ [Event.mkdirAll
                 (Dir ((newServiceFromPlatformTemplate_SystemD enc name t).1.filePath h)),
               Event.writeFile
                 ((newServiceFromPlatformTemplate_SystemD enc name t).1.filePath h) t]
      ∧ ((newServiceFromPlatformTemplate enc name t).1.Install enc h tr).2 =
        tr ++ [Event.mkdirAll
                 (Dir ((newServiceFromPlatformTemplate enc name t).1.filePath h)),
               Event.writeFile ((newServiceFromPlatformTemplate enc name t).1.filePath h)
                 (enc.SERVICEToLaunchD (enc.LaunchDToSERVICE t))]
      ∧ ((newServiceFromPlatformTemplate exampleEncoders "x".toList "x".toList).1.Install
          exampleEncoders (exampleHost true [] (fun _ => ([], none)) ([], none) none) []) =
        (none, [Event.mkdirAll "/Library/LaunchDaemons".toList,
                Event.writeFile "/Library/LaunchDaemons/x.plist".toList
                  "<plist>x</plist>".toList])
      ∧ "<plist>x</plist>".toList ≠ "x".toList := by
  refine ⟨?_, ?_, by decide, by decide⟩
  · rw [systemd_Install_writes]
    simp [newServiceFromPlatformTemplate_SystemD]
  · rw [launchd_Install_writes]
    simp [newServiceFromPlatformTemplate]

/-! ## Info without a config file -/

/-- C2, the code at the failing input. The config file does not exist and the query
succeeds without reporting the service. The plist engine's Info flags the missing file
with `ErrServiceDoesNotExist`; the unit engine's Info discards the error of the file
read and returns `Error = nil`. -/
theorem Info_missing_file :
    ((exampleLaunchd "demo".toList).Info
        (exampleHost true []
          (fun _ => ("PID\tStatus\tLabel\n-\t0\tcom.apple.other".toList, none))
          ([], some (noSuchFile "open".toList "/Library/LaunchDaemons/demo.plist".toList))
          none) []).1 =
        some { Error := some GoError.ErrServiceDoesNotExist,
               Service := exampleSpec "demo".toList,
               IsRunning := false, PID := -1,
               FilePath := "/Library/LaunchDaemons/demo.plist".toList,
               FileContent := [] }
      ∧ ((exampleSystemd "demo".toList).Info
        (exampleHost true [] (fun _ => ([], none))
          ([], some (noSuchFile "open".toList "/etc/systemd/system/demo.service".toList))
          none) []).1 =
        some { Error := none,
               Service := exampleSpec "demo".toList,
               IsRunning := false, PID := -1,
               FilePath := "/etc/systemd/system/demo.service".toList,
               FileContent := [] } := by
  decide

/-! ## Unmatched failures of the native tool -/

/-- C7, the code at the failing input. `load -w <path>` fails with an error and an
output that matches no recognized phrase; the plist engine's Start drops the error,
issues `start` and returns nil. -/
theorem launchd_Start_drops_load_error :
    (runLaunchCtlCommand
        (exampleHost true [] (answerTo "load".toList "boom".toList (some exitStatus1))
          ([], none) none)
        ["load".toList, "-w".toList, "/Library/LaunchDaemons/demo.plist".toList] []).1
        = ("boom".toList, some exitStatus1)
      ∧ (exampleLaunchd "demo".toList).Start
        (exampleHost true [] (answerTo "load".toList "boom".toList (some exitStatus1))
          ([], none) none) [] =
        (none,
         [Event.exec "launchctl".toList
            ["load".toList, "-w".toList, "/Library/LaunchDaemons/demo.plist".toList],
          Event.exec "launchctl".toList ["start".toList, "demo".toList]]) := by
  decide

/-- The plist engine's Start never returns the error of `load -w <path>`: when the
output matches none of the three phrases it issues `start` and returns nil, whatever
the error of the load. -/
theorem launchd_Start_ignores_load_error (h : Host) (s : launchdService) (tr : List Event)
    (h1 : contains (runLaunchCtlCommand h ["load".toList, "-w".toList, s.filePath h] tr).1.1
      "No such file or directory".toList = false)
    (h2 : contains (runLaunchCtlCommand h ["load".toList, "-w".toList, s.filePath h] tr).1.1
      "Invalid property list".toList = false)
    (h3 : contains (runLaunchCtlCommand h ["load".toList, "-w".toList, s.filePath h] tr).1.1
      "service already loaded".toList = false) :
    s.Start h tr =
      (none, tr ++ [Event.exec "launchctl".toList ["load".toList, "-w".toList, s.filePath h],
                    Event.exec "launchctl".toList ["start".toList, s.serviceSpec.Name]]) := by
  simp only [launchdService.Start, h1, h2, h3, Bool.false_eq_true, if_false]
  simp [runLaunchCtlCommand]

/-- The plist engine's Stop returns the error of `unload <path>` unchanged when the
output does not contain "Could not find specified service". -/
theorem launchd_Stop_unmatched (h : Host) (s : launchdService) (tr : List Event)
    (e : ExecError)
    (herr : (runLaunchCtlCommand h ["unload".toList, s.filePath h]
      (runLaunchCtlCommand h ["stop".toList, s.serviceSpec.Name] tr).2).1.2 = some e)
    (hout : contains (runLaunchCtlCommand h ["unload".toList, s.filePath h]
      (runLaunchCtlCommand h ["stop".toList, s.serviceSpec.Name] tr).2).1.1
      "Could not find specified service".toList = false) :
    (s.Stop h tr).1 = some (GoError.exec e) := by
  simp only [launchdService.Stop, hout, herr, Bool.false_eq_true, if_false]
  rfl

/-- The unit engine's Start returns the error of a failing step unchanged when the
output of that step does not carry both phrases of its not-exist pattern. -/
theorem systemd_Start_unmatched (h : Host) (s : systemdService) (tr : List Event) :
    (∀ e, (runSystemCtlCommand h ["daemon-reload".toList] tr).1.2 = some e →
      (s.Start h tr).1 = some (GoError.exec e))
    ∧ ((runSystemCtlCommand h ["daemon-reload".toList] tr).1.2 = none →
      (∀ e, (runSystemCtlCommand h ["enable".toList, s.serviceSpec.Name]
          (runSystemCtlCommand h ["daemon-reload".toList] tr).2).1.2 = some e →
        (contains (runSystemCtlCommand h ["enable".toList, s.serviceSpec.Name]
            (runSystemCtlCommand h ["daemon-reload".toList] tr).2).1.1
            "Failed to enable unit".toList
          && contains (runSystemCtlCommand h ["enable".toList, s.serviceSpec.Name]
            (runSystemCtlCommand h ["daemon-reload".toList] tr).2).1.1
            "does not exist".toList) = false →
        (s.Start h tr).1 = some (GoError.exec e))
      ∧ ((runSystemCtlCommand h ["enable".toList, s.serviceSpec.Name]
          (runSystemCtlCommand h ["daemon-reload".toList] tr).2).1.2 = none →
        ∀ e, (runSystemCtlCommand h ["start".toList, s.serviceSpec.Name]
            (runSystemCtlCommand h ["enable".toList, s.serviceSpec.Name]
              (runSystemCtlCommand h ["daemon-reload".toList] tr).2).2).1.2 = some e →
          (contains (runSystemCtlCommand h ["start".toList, s.serviceSpec.Name]
              (runSystemCtlCommand h ["enable".toList, s.serviceSpec.Name]
                (runSystemCtlCommand h ["daemon-reload".toList] tr).2).2).1.1
              "Failed to start".toList
            && contains (runSystemCtlCommand h ["start".toList, s.serviceSpec.Name]
              (runSystemCtlCommand h ["enable".toList, s.serviceSpec.Name]
                (runSystemCtlCommand h ["daemon-reload".toList] tr).2).2).1.1
              "not found".toList) = false →
          (s.Start h tr).1 = some (GoError.exec e))) := by
  refine ⟨?_, ?_⟩
  · intro e he
    simp only [systemdService.Start, he]
  · intro h0
    refine ⟨?_, ?_⟩
    · intro e he hp
      simp only [systemdService.Start, h0, he, hp, Bool.false_eq_true, if_false]
    · intro h1 e he hp
      simp only [systemdService.Start, h0, h1, he, hp, Bool.false_eq_true, if_false]

/-! ## Totality of the status parsers -/

/-- C10, the code at the failing inputs. A successful `list` with empty output makes
the plist engine's Info index `chunks[2]` out of range, and a successful `status` whose
"Main PID" line has exactly two tokens makes the unit engine's Info index
`lineParts[2]` out of range: neither returns a record. -/
theorem Info_index_out_of_range :
    ((exampleLaunchd "demo".toList).Info
        (exampleHost true [] (fun _ => ([], none)) ("<plist/>".toList, none) none) []).1
        = none
      ∧ ((exampleLaunchd "demo".toList).Info
        (exampleHost true [] (fun _ => ("-\t0".toList, none)) ("<plist/>".toList, none)
          none) []).1 = none
      ∧ ((exampleSystemd "demo".toList).Info
        (exampleHost true [] (fun _ => ("Main PID".toList, none)) ("[Unit]".toList, none)
          none) []).1 = none := by
  decide

/-! ## Path resolution -/

theorem splitOn_ne_nil (sep : Char) (s : GoString) : splitOn sep s ≠ [] := by
  induction s with
  | nil => simp [splitOn]
  | cons c s ih =>
    unfold splitOn
    split
    · simp
    · split <;> simp

theorem splitOn_of_not_mem (sep : Char) (s : GoString) (hs : sep ∉ s) :
    splitOn sep s = [s] := by
  induction s with
  | nil => rfl
  | cons c s ih =>
    have hc : c ≠ sep := fun hh => hs (by simp [hh])
    have hs1 : sep ∉ s := fun hh => hs (by simp [hh])
    simp [splitOn, hc, ih hs1]

theorem splitOn_append (sep : Char) (a b : GoString) :
    splitOn sep (a ++ sep :: b) = splitOn sep a ++ splitOn sep b := by
  induction a with
  | nil => simp [splitOn]
  | cons c a ih =>
    by_cases hc : c = sep
    · simp [splitOn, hc, ih]
    · cases hsa : splitOn sep a with
      | nil => exact absurd hsa (splitOn_ne_nil sep a)
      | cons q qs =>
        rw [hsa] at ih
        simp [splitOn, hc, ih, hsa]

theorem joinSlash_cons (x : GoString) (l : List GoString) (hl : l ≠ []) :
    joinSlash (x :: l) = x ++ '/' :: joinSlash l := by
  cases l with
  | nil => exact absurd rfl hl
  | cons y ys => rfl

theorem joinSlash_append (l r : List GoString) (hr : r ≠ []) :
    ∃ pre, joinSlash (l ++ r) = pre ++ joinSlash r := by
  induction l with
  | nil => exact ⟨[], by simp⟩
  | cons x l ih =>
    obtain ⟨pre, hpre⟩ := ih
    refine ⟨x ++ '/' :: pre, ?_⟩
    have hne : l ++ r ≠ [] := by simp [hr]
    rw [List.cons_append, joinSlash_cons x (l ++ r) hne, hpre]
    simp

theorem cleanStack_regular (rooted : Bool) (r : List GoString) (stack : List GoString)
    (hreg : ∀ c ∈ r, c ≠ [] ∧ c ≠ ['.'] ∧ c ≠ ['.', '.']) :
    cleanStack rooted r stack = r.reverse ++ stack := by
  induction r generalizing stack with
  | nil => rfl
  | cons c r ih =>
    have hc := hreg c (by simp)
    have hstep : cleanStep rooted stack c = c :: stack := by
      simp [cleanStep, hc.1, hc.2.1, hc.2.2]
    have hrest : cleanStack rooted r (c :: stack) = r.reverse ++ (c :: stack) :=
      ih (c :: stack) (fun d hd => hreg d (by simp [hd]))
    simp only [cleanStack, List.foldl_cons] at hrest ⊢
    rw [hstep, hrest]
    simp

theorem cleanComps_regular_suffix (rooted : Bool) (a r : List GoString) (hr : r ≠ [])
    (hreg : ∀ c ∈ r, c ≠ [] ∧ c ≠ ['.'] ∧ c ≠ ['.', '.']) :
    ∃ pre, cleanComps rooted (a ++ r) = pre ++ joinSlash r := by
  have hst : cleanStack rooted (a ++ r) [] = r.reverse ++ cleanStack rooted a [] := by
    have := cleanStack_regular rooted r (cleanStack rooted a []) hreg
    simpa [cleanStack, List.foldl_append] using this
  obtain ⟨pre, hpre⟩ := joinSlash_append (cleanStack rooted a []).reverse r hr
  have hrev : (r.reverse ++ cleanStack rooted a []).reverse =
      (cleanStack rooted a []).reverse ++ r := by simp
  have hne : r.reverse ++ cleanStack rooted a [] ≠ [] := by simp [hr]
  unfold cleanComps
  rw [hst]
  cases hs : r.reverse ++ cleanStack rooted a [] with
  | nil => exact absurd hs hne
  | cons top below =>
    rw [← hs]
    cases rooted with
    | true =>
      refine ⟨'/' :: pre, ?_⟩
      simp only [renderPath, hrev, hpre]
      simp
    | false =>
      refine ⟨pre, ?_⟩
      have : renderPath false (r.reverse ++ cleanStack false a []) =
          joinSlash (r.reverse ++ cleanStack false a []).reverse := by
        rw [hs]; rfl
      rw [this, hrev, hpre]

theorem Join_home_suffix (home cfg ns : GoString) (hcfg : cfg ≠ []) (hns : '/' ∉ ns)
    (hreg : ∀ c ∈ splitOn '/' cfg ++ [ns], c ≠ [] ∧ c ≠ ['.'] ∧ c ≠ ['.', '.']) :
    ∃ pre, Join [home, cfg, ns] = pre ++ joinSlash (splitOn '/' cfg ++ [ns]) := by
  have hnsne : ns ≠ [] := (hreg ns (by simp)).1
  have hrne : splitOn '/' cfg ++ [ns] ≠ [] := by simp
  have hsplit : splitOn '/' (cfg ++ '/' :: ns) = splitOn '/' cfg ++ [ns] := by
    rw [splitOn_append, splitOn_of_not_mem '/' ns hns]
  cases cfg with
  | nil => exact absurd rfl hcfg
  | cons k ks =>
    cases home with
    | nil =>
      obtain ⟨pre, hpre⟩ := cleanComps_regular_suffix (decide (k = '/')) []
        (splitOn '/' (k :: ks) ++ [ns]) hrne hreg
      refine ⟨pre, ?_⟩
      have hj : Join [[], k :: ks, ns] = Clean ((k :: ks) ++ '/' :: ns) := by
        simp [Join, List.filter, hnsne, joinSlash]
      rw [hj]
      simp only [List.nil_append] at hpre
      rw [← hpre, ← hsplit]
      rfl
    | cons c hs =>
      obtain ⟨pre, hpre⟩ := cleanComps_regular_suffix (decide (c = '/'))
        (splitOn '/' (c :: hs)) (splitOn '/' (k :: ks) ++ [ns]) hrne hreg
      refine ⟨pre, ?_⟩
      have hj : Join [c :: hs, k :: ks, ns] =
          Clean ((c :: hs) ++ '/' :: ((k :: ks) ++ '/' :: ns)) := by
        simp [Join, List.filter, hnsne, joinSlash]
      rw [hj, ← hpre, ← hsplit, ← splitOn_append]
      rfl

theorem Join_rooted_dir (rest ns : GoString) (kept : List GoString)
    (hk : cleanStack true (splitOn '/' ('/' :: rest)) [] = kept) (hns : '/' ∉ ns)
    (hreg : ns ≠ [] ∧ ns ≠ ['.'] ∧ ns ≠ ['.', '.']) :
    Join ['/' :: rest, ns] = '/' :: joinSlash (kept.reverse ++ [ns]) := by
  have hj : Join ['/' :: rest, ns] = Clean (('/' :: rest) ++ '/' :: ns) := by
    simp [Join, List.filter, hreg.1, joinSlash]
  have hsplit : splitOn '/' (('/' :: rest) ++ '/' :: ns) = splitOn '/' ('/' :: rest) ++ [ns] := by
    rw [splitOn_append, splitOn_of_not_mem '/' ns hns]
  have hst : cleanStack true (splitOn '/' ('/' :: rest) ++ [ns]) [] = ns :: kept := by
    have := cleanStack_regular true [ns] kept (by simpa using hreg)
    simpa [cleanStack, List.foldl_append, ← hk] using this
  rw [hj]
  show cleanComps (decide ('/' = '/')) (splitOn '/' (('/' :: rest) ++ '/' :: ns)) = _
  rw [hsplit]
  simp [cleanComps, hst, renderPath]

theorem regular_with_suffix (name ext : GoString) (hext : 3 ≤ ext.length) :
    name ++ ext ≠ [] ∧ name ++ ext ≠ ['.'] ∧ name ++ ext ≠ ['.', '.'] := by
  refine ⟨?_, ?_, ?_⟩ <;>
  · intro hh
    have := congrArg List.length hh
    simp only [List.length_append, List.length_cons, List.length_nil] at this
    omega

theorem systemd_root_path (name : GoString) (hname : '/' ∉ name) :
    Join ["/etc/systemd/system".toList, name ++ ".service".toList] =
      "/etc/systemd/system/".toList ++ name ++ ".service".toList := by
  have hns : '/' ∉ name ++ ".service".toList := by
    simp only [List.mem_append, not_or]
    exact ⟨hname, by decide⟩
  have := Join_rooted_dir "etc/systemd/system".toList (name ++ ".service".toList)
    ["system".toList, "systemd".toList, "etc".toList] (by decide) hns
    (regular_with_suffix name _ (by decide))
  simpa [joinSlash] using this

theorem launchd_root_path (name : GoString) (hname : '/' ∉ name) :
    Join ["/Library/LaunchDaemons".toList, name ++ ".plist".toList] =
      "/Library/LaunchDaemons/".toList ++ name ++ ".plist".toList := by
  have hns : '/' ∉ name ++ ".plist".toList := by
    simp only [List.mem_append, not_or]
    exact ⟨hname, by decide⟩
  have := Join_rooted_dir "Library/LaunchDaemons".toList (name ++ ".plist".toList)
    ["LaunchDaemons".toList, "Library".toList] (by decide) hns
    (regular_with_suffix name _ (by decide))
  simpa [joinSlash] using this

theorem systemd_user_path (home name : GoString) (hname : '/' ∉ name) :
    ∃ pre, Join [home, ".config/systemd/user".toList, name ++ ".service".toList] =
      pre ++ ".config/systemd/user/".toList ++ name ++ ".service".toList := by
  have hns : '/' ∉ name ++ ".service".toList := by
    simp only [List.mem_append, not_or]
    exact ⟨hname, by decide⟩
  have hsp : splitOn '/' ".config/systemd/user".toList =
      [".config".toList, "systemd".toList, "user".toList] := by decide
  obtain ⟨pre, hpre⟩ := Join_home_suffix home ".config/systemd/user".toList
    (name ++ ".service".toList) (by decide) hns (by
      intro c hc
      rw [hsp] at hc
      simp only [List.mem_append, List.mem_cons, List.mem_singleton, List.not_mem_nil,
        or_false] at hc
      rcases hc with (h1 | h1 | h1) | h1
      · rw [h1]; decide
      · rw [h1]; decide
      · rw [h1]; decide
      · rw [h1]; exact regular_with_suffix name _ (by decide))
  refine ⟨pre, ?_⟩
  rw [hpre, hsp]
  simp [joinSlash]

theorem launchd_user_path (home name : GoString) (hname : '/' ∉ name) :
    ∃ pre, Join [home, "Library/LaunchAgents".toList, name ++ ".plist".toList] =
      pre ++ "Library/LaunchAgents/".toList ++ name ++ ".plist".toList := by
  have hns : '/' ∉ name ++ ".plist".toList := by
    simp only [List.mem_append, not_or]
    exact ⟨hname, by decide⟩
  have hsp : splitOn '/' "Library/LaunchAgents".toList =
      ["Library".toList, "LaunchAgents".toList] := by decide
  obtain ⟨pre, hpre⟩ := Join_home_suffix home "Library/LaunchAgents".toList
    (name ++ ".plist".toList) (by decide) hns (by
      intro c hc
      rw [hsp] at hc
      simp only [List.mem_append, List.mem_cons, List.mem_singleton, List.not_mem_nil,
        or_false] at hc
      rcases hc with (h1 | h1) | h1
      · rw [h1]; decide
      · rw [h1]; decide
      · rw [h1]; exact regular_with_suffix name _ (by decide))
  refine ⟨pre, ?_⟩
  rw [hpre, hsp]
  simp [joinSlash]

theorem systemd_paths_differ (pre name : GoString) :
    "/etc/systemd/system/".toList ++ name ++ ".service".toList ≠
      pre ++ ".config/systemd/user/".toList ++ name ++ ".service".toList := by
  intro hh
  have h1 : "/etc/systemd/system/".toList ++ (name ++ ".service".toList) =
      (pre ++ ".config/systemd/user/".toList) ++ (name ++ ".service".toList) := by
    simpa [List.append_assoc] using hh
  have h2 := List.append_cancel_right h1
  have h3 := congrArg List.length h2
  rw [List.length_append] at h3
  have h4 : "/etc/systemd/system/".toList.length = 20 := by decide
  have h5 : ".config/systemd/user/".toList.length = 21 := by decide
  omega

theorem launchd_paths_differ (pre name : GoString) :
    "/Library/LaunchDaemons/".toList ++ name ++ ".plist".toList ≠
      pre ++ "Library/LaunchAgents/".toList ++ name ++ ".plist".toList := by
  intro hh
  have h1 : "/Library/LaunchDaemons/".toList ++ (name ++ ".plist".toList) =
      (pre ++ "Library/LaunchAgents/".toList) ++ (name ++ ".plist".toList) := by
    simpa [List.append_assoc] using hh
  have h2 := List.append_cancel_right h1
  have h4 : "/L".toList ++ "ibrary/LaunchDaemons/".toList =
      pre ++ "Library/LaunchAgents/".toList := by
    rw [← h2]; rfl
  have h5 := (List.append_inj' h4 (by decide)).2
  exact absurd h5 (by decide)

/-- C8, the claim as stated fails: for the service name `../../../../x` and the home
directory `/h` the unit engine resolves the root path and the non-root path to the same
file `/x.service`, and so does the plist engine with `/x.plist`. -/
theorem filePath_root_user_collide :
    (exampleSystemd "../../../../x".toList).filePath
        (exampleHost true "/h".toList (fun _ => ([], none)) ([], none) none) =
      (exampleSystemd "../../../../x".toList).filePath
        (exampleHost false "/h".toList (fun _ => ([], none)) ([], none) none)
    ∧ (exampleSystemd "../../../../x".toList).filePath
        (exampleHost false "/h".toList (fun _ => ([], none)) ([], none) none) =
      "/x.service".toList
    ∧ (exampleLaunchd "../../../x".toList).filePath
        (exampleHost true "/h".toList (fun _ => ([], none)) ([], none) none) =
      (exampleLaunchd "../../../x".toList).filePath
        (exampleHost false "/h".toList (fun _ => ([], none)) ([], none) none) := by
  decide

/-- C8, amended. Path resolution is a function of the service name, the root flag and
the home directory only. For a service name without `/`: the unit engine yields
`/etc/systemd/system/<name>.service` for root and the cleaned join of the home
directory, `.config/systemd/user` and `<name>.service` otherwise, which ends in
`.config/systemd/user/<name>.service`; the plist engine yields
`/Library/LaunchDaemons/<name>.plist` for root and the cleaned join of the home
directory, `Library/LaunchAgents` and `<name>.plist` otherwise, which ends in
`Library/LaunchAgents/<name>.plist`; and in each engine the root path and the non-root
path differ, whatever the home directories. -/
theorem filePath_resolution
    (h h' hr hu : Host) (sd sd' : systemdService) (sl sl' : launchdService)
    (hsame_root : h.IsRoot = h'.IsRoot) (hsame_home : h.HomeDir = h'.HomeDir)
    (hsame_d : sd.serviceSpec.Name = sd'.serviceSpec.Name)
    (hsame_l : sl.serviceSpec.Name = sl'.serviceSpec.Name)
    (hroot : hr.IsRoot = true) (huser : hu.IsRoot = false)
    (hd : '/' ∉ sd.serviceSpec.Name) (hl : '/' ∉ sl.serviceSpec.Name) :
    sd.filePath h = sd'.filePath h'
      ∧ sl.filePath h = sl'.filePath h'
      ∧ sd.filePath hr =
          "/etc/systemd/system/".toList ++ sd.serviceSpec.Name ++ ".service".toList
      ∧ sd.filePath hu =
          Join [hu.HomeDir, ".config/systemd/user".toList,
                sd.serviceSpec.Name ++ ".service".toList]
      ∧ (∃ pre, sd.filePath hu =
          pre ++ ".config/systemd/user/".toList ++ sd.serviceSpec.Name ++ ".service".toList)
      ∧ sd.filePath hr ≠ sd.filePath hu
      ∧ sl.filePath hr =
          "/Library/LaunchDaemons/".toList ++ sl.serviceSpec.Name ++ ".plist".toList
      ∧ sl.filePath hu =
          Join [hu.HomeDir, "Library/LaunchAgents".toList,
                sl.serviceSpec.Name ++ ".plist".toList]
      ∧ (∃ pre, sl.filePath hu =
          pre ++ "Library/LaunchAgents/".toList ++ sl.serviceSpec.Name ++ ".plist".toList)
      ∧ sl.filePath hr ≠ sl.filePath hu := by
  have d1 : sd.filePath hr =
      "/etc/systemd/system/".toList ++ sd.serviceSpec.Name ++ ".service".toList := by
    simp only [systemdService.filePath, hroot, if_true]
    exact systemd_root_path _ hd
  have d2 : sd.filePath hu = Join [hu.HomeDir, ".config/systemd/user".toList,
      sd.serviceSpec.Name ++ ".service".toList] := by
    simp [systemdService.filePath, huser]
  have l1 : sl.filePath hr =
      "/Library/LaunchDaemons/".toList ++ sl.serviceSpec.Name ++ ".plist".toList := by
    simp only [launchdService.filePath, hroot, if_true]
    exact launchd_root_path _ hl
  have l2 : sl.filePath hu = Join [hu.HomeDir, "Library/LaunchAgents".toList,
      sl.serviceSpec.Name ++ ".plist".toList] := by
    simp [launchdService.filePath, huser]
  obtain ⟨pd, hpd⟩ := systemd_user_path hu.HomeDir sd.serviceSpec.Name hd
  obtain ⟨pl, hpl⟩ := launchd_user_path hu.HomeDir sl.serviceSpec.Name hl
  refine ⟨?_, ?_, d1, d2, ⟨pd, d2.trans hpd⟩, ?_, l1, l2, ⟨pl, l2.trans hpl⟩, ?_⟩
  · simp only [systemdService.filePath, hsame_root, hsame_home, hsame_d]
  · simp only [launchdService.filePath, hsame_root, hsame_home, hsame_l]
  · rw [d1, d2, hpd]
    exact systemd_paths_differ pd _
  · rw [l1, l2, hpl]
    exact launchd_paths_differ pl _

/-- Witness for C8: the service `demo` as root and as the user with home `/home/u`. -/
theorem filePath_resolution_witness :
    (exampleSystemd "demo".toList).filePath
        (exampleHost true "/root".toList (fun _ => ([], none)) ([], none) none) =
      "/etc/systemd/system/demo.service".toList
    ∧ (exampleSystemd "demo".toList).filePath
        (exampleHost false "/home/u".toList (fun _ => ([], none)) ([], none) none) =
      "/home/u/.config/systemd/user/demo.service".toList
    ∧ (exampleSystemd "demo".toList).filePath
        (exampleHost true "/root".toList (fun _ => ([], none)) ([], none) none) ≠
      (exampleSystemd "demo".toList).filePath
        (exampleHost false "/home/u".toList (fun _ => ([], none)) ([], none) none)
    ∧ (exampleLaunchd "demo".toList).filePath
        (exampleHost true "/root".toList (fun _ => ([], none)) ([], none) none) =
      "/Library/LaunchDaemons/demo.plist".toList
    ∧ (exampleLaunchd "demo".toList).filePath
        (exampleHost false "/home/u".toList (fun _ => ([], none)) ([], none) none) =
      "/home/u/Library/LaunchAgents/demo.plist".toList
    ∧ (exampleLaunchd "demo".toList).filePath
        (exampleHost true "/root".toList (fun _ => ([], none)) ([], none) none) ≠
      (exampleLaunchd "demo".toList).filePath
        (exampleHost false "/home/u".toList (fun _ => ([], none)) ([], none) none) := by
  have w := filePath_resolution
    (exampleHost true "/root".toList (fun _ => ([], none)) ([], none) none)
    (exampleHost true "/root".toList (fun _ => ([], none)) ([], none) none)
    (exampleHost true "/root".toList (fun _ => ([], none)) ([], none) none)
    (exampleHost false "/home/u".toList (fun _ => ([], none)) ([], none) none)
    (exampleSystemd "demo".toList) (exampleSystemd "demo".toList)
    (exampleLaunchd "demo".toList) (exampleLaunchd "demo".toList)
    rfl rfl rfl rfl rfl rfl (by decide) (by decide)
  exact ⟨w.2.2.1, w.2.2.2.1.trans (by decide), w.2.2.2.2.2.1, w.2.2.2.2.2.2.1,
    w.2.2.2.2.2.2.2.1.trans (by decide), w.2.2.2.2.2.2.2.2.2⟩

/-! ## The plist engine's status parsing -/

theorem Info_pid_default (r : Info) (hp : r.PID = -1) : r = { r with PID := -1 } := by
  cases r
  simp_all

theorem launchd_scanLines_rows (name : GoString) (lines : List GoString) (r : Info)
    (hrows : ∀ row ∈ rowsBeforeMatch name (lines.map (splitOn '\t')), 3 ≤ row.length) :
    launchdService.scanLines name lines r =
      some (match (lines.map (splitOn '\t')).find? (fun row => row[2]? = some name) with
        | none => r
        | some row =>
          if (if row.headD [] ≠ ['-'] then atoi (row.headD []) else r.PID) ≠ -1 then
            { r with PID := (if row.headD [] ≠ ['-'] then atoi (row.headD []) else r.PID),
                     IsRunning := true }
          else
            { r with PID := (if row.headD [] ≠ ['-'] then atoi (row.headD []) else r.PID) }) := by
  induction lines with
  | nil => rfl
  | cons line rest ih =>
    by_cases hmatch : (splitOn '\t' line)[2]? = some name
    · match hsp : splitOn '\t' line with
      | [] => rw [hsp] at hmatch; simp at hmatch
      | [_] => rw [hsp] at hmatch; simp at hmatch
      | [_, _] => rw [hsp] at hmatch; simp at hmatch
      | c0 :: c1 :: c2 :: more =>
        have hc : c2 = name := by
          rw [hsp] at hmatch
          simpa using hmatch
        by_cases hdash : c0 = ['-']
        · by_cases hp : r.PID = -1
          · have hr : r = { r with PID := -1 } := Info_pid_default r hp
            simp only [launchdService.scanLines, hsp, List.map_cons, List.find?_cons]
            simp [hc, hdash, hp]
            exact hr
          · simp [launchdService.scanLines, hsp, hc, hdash, hp, List.find?_cons]
        · by_cases hp : atoi c0 = -1 <;>
            simp [launchdService.scanLines, hsp, hc, hdash, hp, List.find?_cons]
    · have htw : rowsBeforeMatch name ((line :: rest).map (splitOn '\t')) =
          splitOn '\t' line :: rowsBeforeMatch name (rest.map (splitOn '\t')) := by
        simp [rowsBeforeMatch, List.takeWhile_cons, hmatch]
      have hlen := hrows (splitOn '\t' line) (by rw [htw]; simp)
      have ih1 := ih (fun row hrow => hrows row (by rw [htw]; simp [hrow]))
      match hsp : splitOn '\t' line, hlen with
      | c0 :: c1 :: c2 :: more, _ =>
        have hc : c2 ≠ name := by
          rw [hsp] at hmatch
          simpa using hmatch
        simp only [launchdService.scanLines, hsp, List.map_cons, List.find?_cons]
        simp [hc, ih1]

theorem launchd_scanLines_short_row (name : GoString) (lines : List GoString) (r : Info)
    (hshort : ∃ row ∈ rowsBeforeMatch name (lines.map (splitOn '\t')), row.length < 3) :
    launchdService.scanLines name lines r = none := by
  induction lines with
  | nil =>
    obtain ⟨row, hrow, _⟩ := hshort
    simp [rowsBeforeMatch] at hrow
  | cons line rest ih =>
    by_cases hmatch : (splitOn '\t' line)[2]? = some name
    · obtain ⟨row, hrow, _⟩ := hshort
      simp [rowsBeforeMatch, List.takeWhile_cons, hmatch] at hrow
    · have htw : rowsBeforeMatch name ((line :: rest).map (splitOn '\t')) =
          splitOn '\t' line :: rowsBeforeMatch name (rest.map (splitOn '\t')) := by
        simp [rowsBeforeMatch, List.takeWhile_cons, hmatch]
      match hsp : splitOn '\t' line with
      | [] => simp [launchdService.scanLines, hsp]
      | [_] => simp [launchdService.scanLines, hsp]
      | [_, _] => simp [launchdService.scanLines, hsp]
      | c0 :: c1 :: c2 :: more =>
        have hc : c2 ≠ name := by
          rw [hsp] at hmatch
          simpa using hmatch
        obtain ⟨row, hrow, hlt⟩ := hshort
        rw [htw, hsp] at hrow
        rcases List.mem_cons.mp hrow with hhead | htail
        · rw [hhead] at hlt
          simp only [List.length_cons] at hlt
          omega
        · simp only [launchdService.scanLines, hsp]
          simp [hc, ih ⟨row, htail, hlt⟩]

/-- C5, the claim as stated fails, at three listings for the service `demo`.
Row `-1<tab>0<tab>demo`: the first field is not `-`, so the claim gives running; Info
tests the parsed PID against `-1` and leaves IsRunning false.
Row `5<tab>0<tab>demo<tab>extra`: the last field is not the name, so the claim finds
no row; Info compares the third field and reports PID 5, running.
Listing ` 7<tab>0<tab>demo` with a leading blank: the claim parses the first field
` 7`, which is no integer, to PID 0; Info trims the output first and reports PID 7. -/
theorem listing_reference_differs :
    ((exampleLaunchd "demo".toList).Info
        (exampleHost true [] (fun _ => ("-1\t0\tdemo".toList, none))
          ("<plist/>".toList, none) none) []).1 =
        some { Error := none,
               Service := exampleSpec "demo".toList,
               IsRunning := false, PID := -1,
               FilePath := "/Library/LaunchDaemons/demo.plist".toList,
               FileContent := "<plist/>".toList }
      ∧ listingReference "demo".toList "-1\t0\tdemo".toList = (-1, true)
      ∧ ((exampleLaunchd "demo".toList).Info
        (exampleHost true [] (fun _ => ("5\t0\tdemo\textra".toList, none))
          ("<plist/>".toList, none) none) []).1 =
        some { Error := none,
               Service := exampleSpec "demo".toList,
               IsRunning := true, PID := 5,
               FilePath := "/Library/LaunchDaemons/demo.plist".toList,
               FileContent := "<plist/>".toList }
      ∧ listingReference "demo".toList "5\t0\tdemo\textra".toList = (-1, false)
      ∧ ((exampleLaunchd "demo".toList).Info
        (exampleHost true [] (fun _ => (" 7\t0\tdemo".toList, none))
          ("<plist/>".toList, none) none) []).1 =
        some { Error := none,
               Service := exampleSpec "demo".toList,
               IsRunning := true, PID := 7,
               FilePath := "/Library/LaunchDaemons/demo.plist".toList,
               FileContent := "<plist/>".toList }
      ∧ listingReference "demo".toList " 7\t0\tdemo".toList = (0, true) := by
  decide

/-- C5, amended. For every service name and every output of a successful `list`
command, trimmed of surrounding white space and split into lines and tab-separated
fields: when every line before the first row whose third field equals the service
name has at least three fields (all lines when there is no such row; the lines after
that row are not read), Info returns a record, and that row decides it: first field
`-` gives PID `-1` and IsRunning false; any other first field gives PID = the value
Atoi returns for that field, and IsRunning true exactly when that PID is not `-1`.
With no such row PID is `-1` and IsRunning false. In every case the listing adds no
error: Error is what the file read gave. -/
theorem launchd_Info_listing (h : Host) (s : launchdService) (tr : List Event)
    (hok : (runLaunchCtlCommand h ["list".toList]
      (tr ++ [Event.readFile (s.filePath h)])).1.2 = none)
    (hrows : ∀ row ∈ rowsBeforeMatch s.serviceSpec.Name
      (listingRows (runLaunchCtlCommand h ["list".toList]
        (tr ++ [Event.readFile (s.filePath h)])).1.1), 3 ≤ row.length) :
    ∃ info, (s.Info h tr).1 = some info
      ∧ info.Error = fileError (h.ReadFile tr (s.filePath h))
      ∧ (∀ row, (listingRows (runLaunchCtlCommand h ["list".toList]
            (tr ++ [Event.readFile (s.filePath h)])).1.1).find?
              (fun row => row[2]? = some s.serviceSpec.Name) = some row →
          (row.head? = some ['-'] → info.PID = -1 ∧ info.IsRunning = false)
          ∧ (∀ first, row.head? = some first → first ≠ ['-'] →
              info.PID = atoi first ∧ (info.IsRunning = true ↔ atoi first ≠ -1)))
      ∧ ((listingRows (runLaunchCtlCommand h ["list".toList]
            (tr ++ [Event.readFile (s.filePath h)])).1.1).find?
              (fun row => row[2]? = some s.serviceSpec.Name) = none →
          info.PID = -1 ∧ info.IsRunning = false) := by
  have hrows1 : ∀ row ∈ rowsBeforeMatch s.serviceSpec.Name
      ((splitOn '\n' (trimSpace (runLaunchCtlCommand h ["list".toList]
        (tr ++ [Event.readFile (s.filePath h)])).1.1)).map (splitOn '\t')),
      3 ≤ row.length := hrows
  have hpid : (s.fileSnapshot h tr).PID = -1 := by
    simp only [launchdService.fileSnapshot]
    split <;> rfl
  have hrun : (s.fileSnapshot h tr).IsRunning = false := by
    simp only [launchdService.fileSnapshot]
    split <;> rfl
  have herr : (s.fileSnapshot h tr).Error = fileError (h.ReadFile tr (s.filePath h)) := by
    simp only [launchdService.fileSnapshot, fileError]
    split <;> rfl
  have hinfo : (s.Info h tr).1 = launchdService.scanLines s.serviceSpec.Name
      (splitOn '\n' (trimSpace (runLaunchCtlCommand h ["list".toList]
        (tr ++ [Event.readFile (s.filePath h)])).1.1)) (s.fileSnapshot h tr) := by
    simp only [launchdService.Info, hok]
  rw [hinfo, launchd_scanLines_rows s.serviceSpec.Name _ _ hrows1]
  simp only [listingRows]
  generalize s.fileSnapshot h tr = r0 at hpid hrun herr ⊢
  cases hf : List.find? (fun row => decide (row[2]? = some s.serviceSpec.Name))
      (List.map (splitOn '\t') (splitOn '\n' (trimSpace (runLaunchCtlCommand h ["list".toList]
        (tr ++ [Event.readFile (s.filePath h)])).1.1))) with
  | none =>
    refine ⟨_, rfl, herr, ?_, ?_⟩
    · intro row hrow
      exact absurd hrow (by simp)
    · intro _
      exact ⟨hpid, hrun⟩
  | some row0 =>
    obtain ⟨c0, hc0⟩ : ∃ c0, row0.headD [] = c0 := ⟨_, rfl⟩
    have hhead : ∀ f, row0.head? = some f → c0 = f := by
      intro f hf1
      cases row0 with
      | nil => simp at hf1
      | cons a b =>
        simp only [List.head?_cons, Option.some.injEq] at hf1
        simp only [List.headD_cons] at hc0
        rw [← hc0, hf1]
    simp only [hc0]
    refine ⟨_, rfl, ?_, ?_, ?_⟩
    · split_ifs <;> simp [herr]
    · intro row hrow
      have hrr : row0 = row := by simpa using hrow
      subst hrr
      refine ⟨fun hd => ?_, fun first hd hne => ?_⟩
      · have hh := hhead _ hd
        subst hh
        simp [hpid, hrun]
      · have hh := hhead _ hd
        subst hh
        by_cases hp : atoi c0 = -1 <;> simp [hne, hp, hrun]
    · intro hnone
      exact absurd hnone (by simp)

/-- Witness for C5: a listing with a header, the row of the service (PID 123), and
after it a line with a single field, which the loop never reads. -/
theorem launchd_Info_listing_witness :
    ∃ info, ((exampleLaunchd "demo".toList).Info
        (exampleHost true []
          (fun _ => ("PID\tStatus\tLabel\n123\t0\tdemo\nshort".toList, none))
          ("<plist/>".toList, none) none) []).1 = some info
      ∧ info.Error = none ∧ info.PID = 123 ∧ info.IsRunning = true := by
  obtain ⟨info, h1, h2, h3, _⟩ := launchd_Info_listing
    (exampleHost true []
      (fun _ => ("PID\tStatus\tLabel\n123\t0\tdemo\nshort".toList, none))
      ("<plist/>".toList, none) none)
    (exampleLaunchd "demo".toList) [] (by decide) (by decide)
  have h4 := (h3 ["123".toList, "0".toList, "demo".toList] (by decide)).2
    "123".toList (by decide) (by decide)
  refine ⟨info, h1, h2.trans (by decide), h4.1.trans (by decide), h4.2.mpr ?_⟩
  decide

/-! ## The unit engine's status parsing -/

theorem lastMainPidLine_cons_main (line : GoString) (rest : List GoString)
    (hm : isMainPidLine line = true) :
    lastMainPidLine (line :: rest) = some ((lastMainPidLine rest).getD line) := by
  simp [lastMainPidLine, List.filter_cons, hm, List.getLast?_cons]

theorem lastMainPidLine_cons_other (line : GoString) (rest : List GoString)
    (hm : isMainPidLine line = false) :
    lastMainPidLine (line :: rest) = lastMainPidLine rest := by
  simp [lastMainPidLine, List.filter_cons, hm]

theorem systemd_scanLines_lines (lines : List GoString) (r : Info)
    (htok : ∀ l ∈ lines, isMainPidLine l = true → 3 ≤ (splitOn ' ' (trimSpace l)).length) :
    systemdService.scanLines lines r =
      some { r with
        PID := (match lastMainPidLine lines with
          | none => r.PID
          | some l => atoi (pidToken l)),
        IsRunning := r.IsRunning || lines.any reportsRunning } := by
  induction lines generalizing r with
  | nil =>
    cases r
    simp [systemdService.scanLines, lastMainPidLine]
  | cons line rest ih =>
    have ih1 := fun r1 => ih r1 (fun l hl => htok l (by simp [hl]))
    by_cases hm : contains line "Main PID".toList = true
    · have hm1 : isMainPidLine line = true := hm
      have hlen := htok line (by simp) hm1
      have hrr : reportsRunning line = false := by
        unfold reportsRunning
        rw [hm]
        rfl
      match hsp : splitOn ' ' (trimSpace line), hlen with
      | a :: b :: c :: more, _ =>
        have hp : pidToken line = c := by simp [pidToken, hsp]
        rw [systemdService.scanLines, if_pos hm]
        simp only [hsp, List.length_cons, ge_iff_le, Nat.le_add_left, if_true,
          List.getElem?_cons_succ, List.getElem?_cons_zero]
        rw [ih1, lastMainPidLine_cons_main line rest hm1]
        cases hl : lastMainPidLine rest with
        | none => simp [hp, hrr]
        | some l0 => simp [hrr]
    · have hm0 : contains line "Main PID".toList = false := by simpa using hm
      have hm1 : isMainPidLine line = false := hm0
      rw [systemdService.scanLines, if_neg hm, lastMainPidLine_cons_other line rest hm1]
      by_cases ha : contains line "Active".toList = true
      · by_cases hr : contains line "active (running)".toList = true
        · have hrr : reportsRunning line = true := by
            unfold reportsRunning
            rw [hm0, ha, hr]
            rfl
          rw [if_pos ha, if_pos hr, ih1]
          simp [hrr]
        · have hrr : reportsRunning line = false := by
            unfold reportsRunning
            rw [Bool.not_eq_true] at hr
            rw [hr]
            simp only [Bool.and_false]
          rw [if_pos ha, if_neg hr, ih1]
          simp [hrr]
      · have hrr : reportsRunning line = false := by
          unfold reportsRunning
          rw [Bool.not_eq_true] at ha
          rw [ha]
          simp only [Bool.and_false, Bool.false_and]
        rw [if_neg ha, ih1]
        simp [hrr]

/-- C6, the claim as stated fails, at two results of `status demo`.
A successful status with the line `Main PID: 7 Active: active (running)`: the reference
parser sees a line containing "Active" and "active (running)" and reports running;
Info tests "Active" only on lines without "Main PID" and leaves IsRunning false.
A failed status (exit status 4) whose output is "Unit demo.service could not be
found.": the reference parser reports not-exist; Info returns the error of the call
before it looks at the output. -/
theorem status_reference_differs :
    ((exampleSystemd "demo".toList).Info
        (exampleHost true [] (fun _ => ("Main PID: 7 Active: active (running)".toList, none))
          ("[Unit]".toList, none) none) []).1 =
        some { Error := none,
               Service := exampleSpec "demo".toList,
               IsRunning := false, PID := 7,
               FilePath := "/etc/systemd/system/demo.service".toList,
               FileContent := "[Unit]".toList }
      ∧ statusReference "Main PID: 7 Active: active (running)".toList = (false, 7, true)
      ∧ ((exampleSystemd "demo".toList).Info
        (exampleHost true []
          (fun _ => ("Unit demo.service could not be found.".toList,
            some { msg := "exit status 4".toList }))
          ([], some (noSuchFile "open".toList "/etc/systemd/system/demo.service".toList))
          none) []).1 =
        some { Error := some (GoError.exec { msg := "exit status 4".toList }),
               Service := exampleSpec "demo".toList,
               IsRunning := false, PID := -1,
               FilePath := "/etc/systemd/system/demo.service".toList,
               FileContent := [] }
      ∧ statusReference "Unit demo.service could not be found.".toList = (true, -1, false)
      ∧ GoError.exec { msg := "exit status 4".toList } ≠ GoError.ErrServiceDoesNotExist := by
  decide

/-- C6, amended. For every result of `status <name>`: when the call fails, Info
returns the error of the call as Error, with PID `-1` and IsRunning false, whatever the
output says. When the call succeeds and the output contains "could not be found"
anywhere, Info returns Error = `ErrServiceDoesNotExist` with PID `-1` and IsRunning
false. When the call succeeds without that phrase and every line containing "Main PID"
has at least three space-separated tokens after trimming, Info returns a record with
Error nil, PID = Atoi of the third token of the last line containing "Main PID" (`-1`
without such a line), and IsRunning true exactly when some line that contains "Active"
but not "Main PID" also contains "active (running)". -/
theorem systemd_Info_status (h : Host) (s : systemdService) (tr : List Event) :
    (∀ e, (runSystemCtlCommand h ["status".toList, s.serviceSpec.Name]
        (tr ++ [Event.readFile (s.filePath h)])).1.2 = some e →
      ∃ info, (s.Info h tr).1 = some info
        ∧ info.Error = some (GoError.exec e)
        ∧ info.PID = -1 ∧ info.IsRunning = false)
    ∧ ((runSystemCtlCommand h ["status".toList, s.serviceSpec.Name]
        (tr ++ [Event.readFile (s.filePath h)])).1.2 = none →
      contains (runSystemCtlCommand h ["status".toList, s.serviceSpec.Name]
        (tr ++ [Event.readFile (s.filePath h)])).1.1 "could not be found".toList = true →
      ∃ info, (s.Info h tr).1 = some info
        ∧ info.Error = some GoError.ErrServiceDoesNotExist
        ∧ info.PID = -1 ∧ info.IsRunning = false)
    ∧ ((runSystemCtlCommand h ["status".toList, s.serviceSpec.Name]
        (tr ++ [Event.readFile (s.filePath h)])).1.2 = none →
      contains (runSystemCtlCommand h ["status".toList, s.serviceSpec.Name]
        (tr ++ [Event.readFile (s.filePath h)])).1.1 "could not be found".toList = false →
      (∀ l ∈ splitOn '\n' (runSystemCtlCommand h ["status".toList, s.serviceSpec.Name]
          (tr ++ [Event.readFile (s.filePath h)])).1.1,
        isMainPidLine l = true → 3 ≤ (splitOn ' ' (trimSpace l)).length) →
      ∃ info, (s.Info h tr).1 = some info
        ∧ info.Error = none
        ∧ info.PID =
          (match lastMainPidLine (splitOn '\n'
              (runSystemCtlCommand h ["status".toList, s.serviceSpec.Name]
                (tr ++ [Event.readFile (s.filePath h)])).1.1) with
            | none => -1
            | some l => atoi (pidToken l))
        ∧ info.IsRunning =
          (splitOn '\n' (runSystemCtlCommand h ["status".toList, s.serviceSpec.Name]
            (tr ++ [Event.readFile (s.filePath h)])).1.1).any reportsRunning) := by
  refine ⟨?_, ?_, ?_⟩
  · intro e he
    have hinfo : (s.Info h tr).1 =
        some { s.fileSnapshot h tr with Error := some (GoError.exec e) } := by
      simp only [systemdService.Info, he]
    exact ⟨_, hinfo, rfl, rfl, rfl⟩
  · intro hok hfound
    have hinfo : (s.Info h tr).1 =
        some { s.fileSnapshot h tr with Error := some GoError.ErrServiceDoesNotExist } := by
      simp only [systemdService.Info, hok, hfound, if_true]
    exact ⟨_, hinfo, rfl, rfl, rfl⟩
  · intro hok hnot htok
    have hinfo : (s.Info h tr).1 = systemdService.scanLines
        (splitOn '\n' (runSystemCtlCommand h ["status".toList, s.serviceSpec.Name]
          (tr ++ [Event.readFile (s.filePath h)])).1.1) (s.fileSnapshot h tr) := by
      simp only [systemdService.Info, hok, hnot, Bool.false_eq_true, if_false]
    rw [hinfo, systemd_scanLines_lines _ _ htok]
    refine ⟨_, rfl, rfl, ?_, ?_⟩
    · simp only [systemdService.fileSnapshot]
    · simp [systemdService.fileSnapshot]

/-- Witness for C6: a failed status call, a not-found output of a successful call, and
a status block of a running service. -/
theorem systemd_Info_status_witness :
    (∃ info, ((exampleSystemd "demo".toList).Info
        (exampleHost true []
          (fun _ => ("Unit demo.service could not be found.".toList, some exitStatus1))
          ([], none) none) []).1 = some info
      ∧ info.Error = some (GoError.exec exitStatus1)
      ∧ info.PID = -1 ∧ info.IsRunning = false)
    ∧ (∃ info, ((exampleSystemd "demo".toList).Info
        (exampleHost true [] (fun _ => ("Unit demo.service could not be found.".toList, none))
          ([], none) none) []).1 = some info
      ∧ info.Error = some GoError.ErrServiceDoesNotExist
      ∧ info.PID = -1 ∧ info.IsRunning = false)
    ∧ (∃ info, ((exampleSystemd "demo".toList).Info
        (exampleHost true []
          (fun _ => ("demo.service - Demo\n   Active: active (running) since Mon\n Main PID: 1234 (demo)".toList,
            none))
          ("[Unit]".toList, none) none) []).1 = some info
      ∧ info.Error = none ∧ info.PID = 1234 ∧ info.IsRunning = true) := by
  refine ⟨?_, ?_, ?_⟩
  · exact (systemd_Info_status
      (exampleHost true []
        (fun _ => ("Unit demo.service could not be found.".toList, some exitStatus1))
        ([], none) none)
      (exampleSystemd "demo".toList) []).1 exitStatus1 (by decide)
  · exact (systemd_Info_status
      (exampleHost true [] (fun _ => ("Unit demo.service could not be found.".toList, none))
        ([], none) none)
      (exampleSystemd "demo".toList) []).2.1 (by decide) (by decide)
  · obtain ⟨info, h1, h2, h3, h4⟩ := (systemd_Info_status
      (exampleHost true []
        (fun _ => ("demo.service - Demo\n   Active: active (running) since Mon\n Main PID: 1234 (demo)".toList,
          none))
        ("[Unit]".toList, none) none)
      (exampleSystemd "demo".toList) []).2.2 (by decide) (by decide) (by decide)
    exact ⟨info, h1, h2, h3.trans (by decide), h4.trans (by decide)⟩

end Service
